import Mathlib

/-!
# Replanning state machine of `rebo_replan_fsm.cpp`

A shallow embedding of `ReboReplanFSM` (file
`src/planner/plan_manage/src/rebo_replan_fsm.cpp`) and theorems about it.

Conventions of the embedding.

* `double` values are elements of a linearly ordered field `K` with a floor
  function (exact arithmetic: rounding of the machine type is not modelled).
  The library square root is a parameter `sqrt : K → K`; theorems that need its
  defining property assume `IsSqrt sqrt`, which `Real.sqrt` satisfies.
* `int` values are `Int` (signed overflow is undefined in the source language,
  so no wrap-around is modelled).
* The object is the record `FSM K`: the member variables, the part of
  `planner_manager_` that the file reads (`local_data_`, `pp_.max_vel_`,
  `pp_.max_acc_`), and observation logs of the calls made to the collaborators
  (`replan_calls_`, `new_target_reads_`, `stop_calls_`, `occ_queries_`, ...).
* Everything a callback obtains from outside the object during one run (clock
  readings, optimizer results, occupancy answers) is an `Oracle K` argument;
  theorems quantify over all oracles.
* Callbacks run one at a time (single-threaded spinner), so an execution is a
  list of `Event`s folded over the state.
* Console output and visualisation calls have no effect on the state and are
  left out.
-/

namespace ReboReplanFSM

/-! ## Vectors (`Eigen::Vector3d`) -/

/-- Three-dimensional vector, the embedding of `Eigen::Vector3d`. -/
@[ext]
structure Vec3 (K : Type) where
  x : K
  y : K
  z : K

namespace Vec3

variable {K : Type} [LinearOrderedField K]

/-- The vector `Eigen::Vector3d::Zero()`. -/
def zero : Vec3 K := ⟨0, 0, 0⟩

/-- Componentwise sum `u + v`. -/
def add (u v : Vec3 K) : Vec3 K := ⟨u.x + v.x, u.y + v.y, u.z + v.z⟩

/-- Componentwise difference `u - v`. -/
def sub (u v : Vec3 K) : Vec3 K := ⟨u.x - v.x, u.y - v.y, u.z - v.z⟩

/-- Product with a scalar on the right, `v * k`. -/
def smul (v : Vec3 K) (k : K) : Vec3 K := ⟨v.x * k, v.y * k, v.z * k⟩

/-- Inner product `u.dot(v)`. -/
def dot (u v : Vec3 K) : K := u.x * v.x + u.y * v.y + u.z * v.z

/-- Squared length `v.squaredNorm()`. -/
def squaredNorm (v : Vec3 K) : K := v.x * v.x + v.y * v.y + v.z * v.z

/-- Length `v.norm()`, the square root of the squared length. -/
def norm (sqrt : K → K) (v : Vec3 K) : K := sqrt v.squaredNorm

/-- Unit vector `v.normalized()`: the library divides by the length when the
squared length is positive and returns the vector itself otherwise. -/
def normalized (sqrt : K → K) (v : Vec3 K) : Vec3 K :=
  if 0 < v.squaredNorm then ⟨v.x / sqrt v.squaredNorm, v.y / sqrt v.squaredNorm,
    v.z / sqrt v.squaredNorm⟩ else v

end Vec3

/-- Defining property of the square root on the non-negative elements. -/
def IsSqrt {K : Type} [LinearOrderedField K] (sqrt : K → K) : Prop :=
  ∀ x : K, 0 ≤ x → 0 ≤ sqrt x ∧ sqrt x * sqrt x = x

/-! ## Data model -/

/-- The enumeration `FSM_EXEC_STATE`, in the order of the `state_str` table. -/
inductive FSM_EXEC_STATE
  | INIT
  | WAIT_TARGET
  | GEN_NEW_TRAJ
  | REPLAN_TRAJ
  | EXEC_TRAJ
  | EMERGENCY_STOP
  deriving DecidableEq, Repr

open FSM_EXEC_STATE

/-- Modelled from the spec: the enumerator `TARGET_TYPE::MANUAL_TARGET` is
declared in a header that is not part of the sources; the goal-selection mode
"manual" is given the value 1. -/
def MANUAL_TARGET : Int := 1

/-- Modelled from the spec: the enumerator `TARGET_TYPE::PRESET_TARGET` is
declared in a header that is not part of the sources; the goal-selection mode
"preset" is given the value 2. -/
def PRESET_TARGET : Int := 2

/-- The fields of `LocalTrajData` (`planner_manager_->local_data_`) that the
file reads. A curve is represented by its evaluation `evaluateDeBoorT`. -/
structure LocalTrajData (K : Type) where
  start_time_ : K
  duration_ : K
  traj_id_ : Int
  start_pos_ : Vec3 K
  position_traj_ : K → Vec3 K
  velocity_traj_ : K → Vec3 K
  acceleration_traj_ : K → Vec3 K

/-- Record of one call `planner_manager_->reboundReplan(...)`: the two flag
arguments as the optimizer receives them. -/
structure ReplanCall where
  flag_polyInit : Bool
  flag_randomPolyTraj : Bool
  deriving DecidableEq, Repr

/-- Result of one optimizer call: the returned flag and the content of
`local_data_` after the call. -/
structure ReplanOutcome (K : Type) where
  success : Bool
  local_data : LocalTrajData K

/-- What one run of a callback obtains from outside the object. -/
structure Oracle (K : Type) where
  /-- Clock reading `ros::Time::now()` taken by the callback body. -/
  now : K
  /-- Clock reading `ros::Time::now()` taken inside `planFromCurrentTraj`. -/
  now_plan : K
  /-- Result of the `i`-th call of `reboundReplan` in this run (from 0). -/
  reboundReplan : Nat → ReplanOutcome K
  /-- Answer of `sdf_map_->getInflateOccupancy`. -/
  getInflateOccupancy : Vec3 K → Bool
  /-- Content of `local_data_` after `planner_manager_->EmergencyStop`. -/
  EmergencyStop : LocalTrajData K

/-- The object `ReboReplanFSM`. -/
structure FSM (K : Type) where
  /- parameters -/
  target_type_ : Int
  replan_thresh_ : K
  no_replan_thresh_ : K
  planning_horizen_ : K
  planning_horizen_time_ : K
  waypoint_num_ : Int
  waypoints_ : Int → Vec3 K
  /-- Field `planner_manager_->pp_.max_vel_`. -/
  max_vel_ : K
  /-- Field `planner_manager_->pp_.max_acc_`. -/
  max_acc_ : K
  /- flags and state -/
  trigger_ : Bool
  have_target_ : Bool
  have_odom_ : Bool
  have_new_target_ : Bool
  flag_escape_emergency_ : Bool
  exec_state_ : FSM_EXEC_STATE
  continously_called_times_ : Int
  current_wp_ : Int
  /-- The function-local `static int fsm_num` of `execFSMCallback`. -/
  fsm_num : Int
  /- vectors -/
  odom_pos_ : Vec3 K
  odom_vel_ : Vec3 K
  /-- Quaternion `odom_orient_` as `(w, x, y, z)`. -/
  odom_orient_ : K × K × K × K
  init_pt_ : Vec3 K
  start_pt_ : Vec3 K
  start_vel_ : Vec3 K
  start_acc_ : Vec3 K
  end_pt_ : Vec3 K
  end_vel_ : Vec3 K
  local_target_pt_ : Vec3 K
  local_target_vel_ : Vec3 K
  /-- Field `planner_manager_->local_data_`. -/
  local_data_ : LocalTrajData K
  /- observation logs, oldest first -/
  /-- Calls of `planner_manager_->reboundReplan`. -/
  replan_calls_ : List ReplanCall
  /-- Values of `have_new_target_` read by `callReboundReplan`, one per call of
  `reboundReplan`. -/
  new_target_reads_ : List Bool
  /-- Calls of `planner_manager_->EmergencyStop`, with the stop position. -/
  stop_calls_ : List (Vec3 K)
  /-- Calls of `getInflateOccupancy`, with the queried point. -/
  occ_queries_ : List (Vec3 K)
  /-- Calls of `planner_manager_->planGlobalTraj`, with the goal. -/
  global_plans_ : List (Vec3 K)
  /-- Number of messages sent on `bspline_pub_`. -/
  bspline_pubs_ : Nat
  /-- Number of messages sent on `data_disp_pub_`. -/
  data_disp_pubs_ : Nat

section Operations

variable {K : Type} [LinearOrderedField K] [FloorRing K]

/-! ## `changeFSMExecState` and `timesOfConsecutiveStateCalls` -/

/-- Source `ReboReplanFSM::changeFSMExecState` (the tag `pos_call` is only
printed). -/
def changeFSMExecState (new_state : FSM_EXEC_STATE) (s : FSM K) : FSM K :=
  let s1 : FSM K :=
    if new_state = s.exec_state_ then
      { s with continously_called_times_ := s.continously_called_times_ + 1 }
    else
      { s with continously_called_times_ := 1 }
  { s1 with exec_state_ := new_state }

/-- Source `ReboReplanFSM::timesOfConsecutiveStateCalls`. -/
def timesOfConsecutiveStateCalls (s : FSM K) : Int × FSM_EXEC_STATE :=
  (s.continously_called_times_, s.exec_state_)

/-! ## `getLocalTarget` -/

/-- Quadratic coefficient `a = N.squaredNorm()` with `N = end_pt_ - init_pt_`. -/
def quadA (s : FSM K) : K := (s.end_pt_.sub s.init_pt_).squaredNorm

/-- Quadratic coefficient `b = 2*(M-X0).dot(N)` with `M = init_pt_`,
`X0 = start_pt_`. -/
def quadB (s : FSM K) : K :=
  2 * (s.init_pt_.sub s.start_pt_).dot (s.end_pt_.sub s.init_pt_)

/-- Quadratic coefficient `c = (M-X0).squaredNorm() - h*h`. -/
def quadC (s : FSM K) : K :=
  (s.init_pt_.sub s.start_pt_).squaredNorm - s.planning_horizen_ * s.planning_horizen_

/-- The discriminant `b*b-4*a*c` tested by `getLocalTarget`. -/
def quadDisc (s : FSM K) : K := quadB s * quadB s - 4 * quadA s * quadC s

/-- The line parameter `t` chosen in the `else` branch of `getLocalTarget`. -/
def lineParam (sqrt : K → K) (s : FSM K) : K :=
  if quadDisc s > 0 then (-quadB s + sqrt (quadDisc s)) / (2 * quadA s)
  else -quadB s / (2 * quadA s)

/-- The braking distance `max_vel_*max_vel_/(2*max_acc_)`. -/
def brakeDist (s : FSM K) : K := (s.max_vel_ * s.max_vel_) / (2 * s.max_acc_)

/-- First statement of `getLocalTarget`: the assignment of `local_target_pt_`. -/
def setLocalTargetPt (sqrt : K → K) (s : FSM K) : FSM K :=
  if (s.end_pt_.sub s.start_pt_).norm sqrt < s.planning_horizen_ then
    { s with local_target_pt_ := s.end_pt_ }
  else
    let p := s.init_pt_.add ((s.end_pt_.sub s.init_pt_).smul (lineParam sqrt s))
    { s with local_target_pt_ := p }

/-- Second statement of `getLocalTarget`: the assignment of
`local_target_vel_`. -/
def setLocalTargetVel (sqrt : K → K) (s : FSM K) : FSM K :=
  if (s.end_pt_.sub s.local_target_pt_).norm sqrt < brakeDist s then
    let v := Vec3.smul (((s.end_pt_.sub s.init_pt_).normalized sqrt).smul s.max_vel_)
      ((s.end_pt_.sub s.local_target_pt_).norm sqrt / brakeDist s)
    { s with local_target_vel_ := v }
  else
    let v := ((s.end_pt_.sub s.init_pt_).normalized sqrt).smul s.max_vel_
    { s with local_target_vel_ := v }

/-- Source `ReboReplanFSM::getLocalTarget`. -/
def getLocalTarget (sqrt : K → K) (s : FSM K) : FSM K :=
  setLocalTargetVel sqrt (setLocalTargetPt sqrt s)

/-! ## `callReboundReplan`, `callEmergencyStop`, `planFromCurrentTraj` -/

/-- Source `ReboReplanFSM::callReboundReplan`; `r` is the result of the
optimizer call it makes. -/
def callReboundReplan (sqrt : K → K) (r : ReplanOutcome K)
    (flag_use_poly_init flag_randomPolyTraj : Bool) (s : FSM K) : Bool × FSM K :=
  let s1 := getLocalTarget sqrt s
  let s2 : FSM K :=
    { s1 with
      replan_calls_ :=
        s1.replan_calls_ ++ [⟨s1.have_new_target_ || flag_use_poly_init, flag_randomPolyTraj⟩]
      new_target_reads_ := s1.new_target_reads_ ++ [s1.have_new_target_]
      local_data_ := r.local_data }
  let s3 : FSM K := { s2 with have_new_target_ := false }
  if r.success then (true, { s3 with bspline_pubs_ := s3.bspline_pubs_ + 1 })
  else (false, s3)

/-- Source `ReboReplanFSM::callEmergencyStop`. -/
def callEmergencyStop (o : Oracle K) (stop_pos : Vec3 K) (s : FSM K) : Bool × FSM K :=
  (true, { s with
    stop_calls_ := s.stop_calls_ ++ [stop_pos]
    local_data_ := o.EmergencyStop
    bspline_pubs_ := s.bspline_pubs_ + 1 })

/-- Source `ReboReplanFSM::planFromCurrentTraj`. -/
def planFromCurrentTraj (sqrt : K → K) (o : Oracle K) (s : FSM K) : Bool × FSM K :=
  let info := s.local_data_
  let t_cur := o.now_plan - info.start_time_
  let s0 : FSM K :=
    { s with
      start_pt_ := info.position_traj_ t_cur
      start_vel_ := info.velocity_traj_ t_cur
      start_acc_ := info.acceleration_traj_ t_cur }
  let r1 := callReboundReplan sqrt (o.reboundReplan 0) false false s0
  if !r1.1 then
    let r2 := callReboundReplan sqrt (o.reboundReplan 1) true false r1.2
    if !r2.1 then
      let r3 := callReboundReplan sqrt (o.reboundReplan 2) true true r2.2
      if !r3.1 then (false, r3.2) else (true, r3.2)
    else (true, r2.2)
  else (true, r1.2)

/-! ## `execFSMCallback` -/

/-- The statements on `static int fsm_num` at the head of `execFSMCallback`
(the branch taken at 100 prints and resets the counter). -/
def countFsmNum (s : FSM K) : FSM K :=
  if s.fsm_num + 1 = 100 then { s with fsm_num := 0 }
  else { s with fsm_num := s.fsm_num + 1 }

/-- The two statements after the `switch` of `execFSMCallback`, which send
`data_disp_` on `data_disp_pub_`. -/
def publishDataDisp (s : FSM K) : FSM K :=
  { s with data_disp_pubs_ := s.data_disp_pubs_ + 1 }

/-- Source `ReboReplanFSM::execFSMCallback`. A `return` inside the `switch`
skips `publishDataDisp`, a `break` reaches it. -/
def execFSMCallback (sqrt : K → K) (o : Oracle K) (s0 : FSM K) : FSM K :=
  let s := countFsmNum s0
  match s.exec_state_ with
  | INIT =>
    if !s.have_odom_ then s
    else if !s.trigger_ then s
    else publishDataDisp (changeFSMExecState WAIT_TARGET s)
  | WAIT_TARGET =>
    if !s.have_target_ then s
    else publishDataDisp (changeFSMExecState GEN_NEW_TRAJ s)
  | GEN_NEW_TRAJ =>
    let s1 : FSM K :=
      { s with start_pt_ := s.odom_pos_, start_vel_ := s.odom_vel_, start_acc_ := Vec3.zero }
    let flag_random_poly_init : Bool :=
      if (timesOfConsecutiveStateCalls s1).1 = 1 then false else true
    let r := callReboundReplan sqrt (o.reboundReplan 0) true flag_random_poly_init s1
    if r.1 then
      publishDataDisp { changeFSMExecState EXEC_TRAJ r.2 with flag_escape_emergency_ := true }
    else publishDataDisp (changeFSMExecState GEN_NEW_TRAJ r.2)
  | EXEC_TRAJ =>
    let info := s.local_data_
    let t_cur := min info.duration_ (o.now - info.start_time_)
    let pos := info.position_traj_ t_cur
    if t_cur > info.duration_ - 1 / 100 then
      changeFSMExecState WAIT_TARGET { s with have_target_ := false }
    else if (s.end_pt_.sub pos).norm sqrt < s.no_replan_thresh_ then s
    else if (info.start_pos_.sub pos).norm sqrt < s.replan_thresh_ then s
    else publishDataDisp (changeFSMExecState REPLAN_TRAJ s)
  | REPLAN_TRAJ =>
    let r := planFromCurrentTraj sqrt o s
    if r.1 then publishDataDisp (changeFSMExecState EXEC_TRAJ r.2)
    else publishDataDisp (changeFSMExecState REPLAN_TRAJ r.2)
  | EMERGENCY_STOP =>
    let s1 : FSM K :=
      if s.flag_escape_emergency_ then (callEmergencyStop o s.odom_pos_ s).2
      else if s.odom_vel_.norm sqrt < 1 / 10 then changeFSMExecState GEN_NEW_TRAJ s
      else s
    publishDataDisp { s1 with flag_escape_emergency_ := false }

/-! ## `checkCollisionCallback` -/

/-- The constant `time_step = 0.01` of `checkCollisionCallback`. -/
def time_step : K := 1 / 100

/-- Number of iterations of `for (t = t_cur; t < duration_; t += time_step)`
when no iteration leaves the loop. -/
def sampleCount (t_cur duration : K) : Nat := ⌈(duration - t_cur) / time_step⌉₊

/-- The values taken by the loop variable `t`: `t_cur + k * time_step` for the
`k` with `t_cur + k * time_step < duration`, in increasing order. -/
def sampleTimes (t_cur duration : K) : List K :=
  (List.range (sampleCount t_cur duration)).map fun (k : Nat) => t_cur + (k : K) * time_step

/-- Body of the `for` loop of `checkCollisionCallback`, run over the remaining
values of the loop variable. -/
def scanTrajectory (sqrt : K → K) (o : Oracle K) (t_cur : K) : List K → FSM K → FSM K
  | [], s => s
  | t :: ts, s =>
    let q := s.local_data_.position_traj_ t
    let s1 : FSM K := { s with occ_queries_ := s.occ_queries_ ++ [q] }
    if o.getInflateOccupancy q then
      let r := planFromCurrentTraj sqrt o s1
      if r.1 then changeFSMExecState EXEC_TRAJ r.2
      else if t - t_cur < 4 / 5 then changeFSMExecState EMERGENCY_STOP r.2
      else changeFSMExecState REPLAN_TRAJ r.2
    else scanTrajectory sqrt o t_cur ts s1

/-- Source `ReboReplanFSM::checkCollisionCallback`. -/
def checkCollisionCallback (sqrt : K → K) (o : Oracle K) (s : FSM K) : FSM K :=
  if s.exec_state_ = WAIT_TARGET then s
  else
    let t_cur := o.now - s.local_data_.start_time_
    scanTrajectory sqrt o t_cur (sampleTimes t_cur s.local_data_.duration_) s

/-! ## `waypointCallback`, `odometryCallback`, `init` -/

/-- Source `ReboReplanFSM::waypointCallback`; `pos` is the position of
`msg->poses[0]` and `plan_ok` the result of `planGlobalTraj`. The operator `%`
of the source truncates towards zero, as `Int.tmod` does. -/
def waypointCallback (pos : Vec3 K) (plan_ok : Bool) (s : FSM K) : FSM K :=
  if pos.z < -(1 / 10) then s
  else
    let s1 : FSM K := { s with trigger_ := true }
    let s2 : FSM K :=
      if s1.target_type_ = MANUAL_TARGET then { s1 with end_pt_ := ⟨pos.x, pos.y, 1⟩ }
      else if s1.target_type_ = PRESET_TARGET then
        { s1 with
          end_pt_ := s1.waypoints_ s1.current_wp_
          current_wp_ := (s1.current_wp_ + 1).tmod s1.waypoint_num_ }
      else s1
    let s3 : FSM K :=
      { s2 with init_pt_ := s2.odom_pos_, global_plans_ := s2.global_plans_ ++ [s2.end_pt_] }
    if plan_ok then
      let s4 : FSM K :=
        { s3 with end_vel_ := Vec3.zero, have_target_ := true, have_new_target_ := true }
      if s4.exec_state_ = WAIT_TARGET then changeFSMExecState GEN_NEW_TRAJ s4
      else if s4.exec_state_ = EXEC_TRAJ then changeFSMExecState REPLAN_TRAJ s4
      else s4
    else s3

/-- Source `ReboReplanFSM::odometryCallback`. -/
def odometryCallback (pos vel : Vec3 K) (orient : K × K × K × K) (s : FSM K) : FSM K :=
  { s with odom_pos_ := pos, odom_vel_ := vel, odom_orient_ := orient, have_odom_ := true }

/-- Values read from the parameter server and set by `initPlanModules`. -/
structure Params (K : Type) where
  target_type_ : Int
  replan_thresh_ : K
  no_replan_thresh_ : K
  planning_horizen_ : K
  planning_horizen_time_ : K
  waypoint_num_ : Int
  waypoints_ : Int → Vec3 K
  max_vel_ : K
  max_acc_ : K
  local_data_ : LocalTrajData K

/-- Source `ReboReplanFSM::init`, applied to the object `raw` as it is before
the call: members that `init` does not assign keep the value they have in
`raw`. The observation logs start empty. -/
def init (p : Params K) (raw : FSM K) : FSM K :=
  { raw with
    current_wp_ := 0
    exec_state_ := INIT
    have_target_ := false
    have_odom_ := false
    target_type_ := p.target_type_
    replan_thresh_ := p.replan_thresh_
    no_replan_thresh_ := p.no_replan_thresh_
    planning_horizen_ := p.planning_horizen_
    planning_horizen_time_ := p.planning_horizen_time_
    waypoint_num_ := p.waypoint_num_
    waypoints_ := fun i => if 0 ≤ i ∧ i < p.waypoint_num_ then p.waypoints_ i else raw.waypoints_ i
    max_vel_ := p.max_vel_
    max_acc_ := p.max_acc_
    local_data_ := p.local_data_
    replan_calls_ := []
    new_target_reads_ := []
    stop_calls_ := []
    occ_queries_ := []
    global_plans_ := []
    bspline_pubs_ := 0
    data_disp_pubs_ := 0 }

/-! ## Executions -/

/-- One callback invocation together with what it receives from outside. -/
inductive Event (K : Type)
  | execFSM (o : Oracle K)
  | checkCollision (o : Oracle K)
  | odometry (pos vel : Vec3 K) (orient : K × K × K × K)
  | waypoint (pos : Vec3 K) (plan_ok : Bool)

/-- Effect of one event on the object. -/
def step (sqrt : K → K) (s : FSM K) : Event K → FSM K
  | .execFSM o => execFSMCallback sqrt o s
  | .checkCollision o => checkCollisionCallback sqrt o s
  | .odometry pos vel orient => odometryCallback pos vel orient s
  | .waypoint pos plan_ok => waypointCallback pos plan_ok s

/-- Effect of a sequence of events, first to last. -/
def run (sqrt : K → K) (s : FSM K) (es : List (Event K)) : FSM K :=
  es.foldl (step sqrt) s

end Operations

/-! ## Specification-side definitions -/

/-- The edges of the transition table of the state machine core:
`INIT -> WAIT_TARGET`, `WAIT_TARGET -> GEN_NEW_TRAJ`,
`GEN_NEW_TRAJ -> {EXEC_TRAJ, GEN_NEW_TRAJ}`,
`EXEC_TRAJ -> {WAIT_TARGET, EXEC_TRAJ, REPLAN_TRAJ}`,
`REPLAN_TRAJ -> {EXEC_TRAJ, REPLAN_TRAJ}`,
`EMERGENCY_STOP -> {EMERGENCY_STOP, GEN_NEW_TRAJ}`. -/
def tableEdge : FSM_EXEC_STATE → FSM_EXEC_STATE → Bool
  | .INIT, .WAIT_TARGET => true
  | .WAIT_TARGET, .GEN_NEW_TRAJ => true
  | .GEN_NEW_TRAJ, .EXEC_TRAJ => true
  | .GEN_NEW_TRAJ, .GEN_NEW_TRAJ => true
  | .EXEC_TRAJ, .WAIT_TARGET => true
  | .EXEC_TRAJ, .EXEC_TRAJ => true
  | .EXEC_TRAJ, .REPLAN_TRAJ => true
  | .REPLAN_TRAJ, .EXEC_TRAJ => true
  | .REPLAN_TRAJ, .REPLAN_TRAJ => true
  | .EMERGENCY_STOP, .EMERGENCY_STOP => true
  | .EMERGENCY_STOP, .GEN_NEW_TRAJ => true
  | _, _ => false

/-- The escalation list as the claim words it: warm start, forced
re-initialization, forced re-initialization with randomization. -/
def escalationClaimed : List ReplanCall :=
  [⟨false, false⟩, ⟨true, false⟩, ⟨true, true⟩]

/-- The escalation list as the optimizer receives it when `have_new_target_`
has the value `nt` on entry. -/
def escalation (nt : Bool) : List ReplanCall :=
  [⟨nt, false⟩, ⟨true, false⟩, ⟨true, true⟩]

/-- Position of the first successful optimizer result among the first three,
counted from 1, and 3 when there is none. -/
def attempts {K : Type} (o : Oracle K) : Nat :=
  if (o.reboundReplan 0).success then 1
  else if (o.reboundReplan 1).success then 2
  else 3

/-- A trajectory record whose fields are all zero. -/
def zeroTraj (K : Type) [LinearOrderedField K] : LocalTrajData K where
  start_time_ := 0
  duration_ := 0
  traj_id_ := 0
  start_pos_ := Vec3.zero
  position_traj_ := fun _ => Vec3.zero
  velocity_traj_ := fun _ => Vec3.zero
  acceleration_traj_ := fun _ => Vec3.zero

/-- An object whose numeric members are zero, whose flags are false and whose
logs are empty, in state `INIT`; the concrete states below are updates of it. -/
def zeroState (K : Type) [LinearOrderedField K] : FSM K where
  target_type_ := 0
  replan_thresh_ := 0
  no_replan_thresh_ := 0
  planning_horizen_ := 0
  planning_horizen_time_ := 0
  waypoint_num_ := 0
  waypoints_ := fun _ => Vec3.zero
  max_vel_ := 0
  max_acc_ := 0
  trigger_ := false
  have_target_ := false
  have_odom_ := false
  have_new_target_ := false
  flag_escape_emergency_ := false
  exec_state_ := .INIT
  continously_called_times_ := 0
  current_wp_ := 0
  fsm_num := 0
  odom_pos_ := Vec3.zero
  odom_vel_ := Vec3.zero
  odom_orient_ := (0, 0, 0, 0)
  init_pt_ := Vec3.zero
  start_pt_ := Vec3.zero
  start_vel_ := Vec3.zero
  start_acc_ := Vec3.zero
  end_pt_ := Vec3.zero
  end_vel_ := Vec3.zero
  local_target_pt_ := Vec3.zero
  local_target_vel_ := Vec3.zero
  local_data_ := zeroTraj K
  replan_calls_ := []
  new_target_reads_ := []
  stop_calls_ := []
  occ_queries_ := []
  global_plans_ := []
  bspline_pubs_ := 0
  data_disp_pubs_ := 0

/-- An oracle whose optimizer results are given by `ok` and leave the
trajectory `traj`, with clock readings `now` and occupancy answer `occ`. -/
def mkOracle {K : Type} (now : K) (ok : Nat → Bool) (traj : LocalTrajData K)
    (occ : Vec3 K → Bool) : Oracle K where
  now := now
  now_plan := now
  reboundReplan := fun i => ⟨ok i, traj⟩
  getInflateOccupancy := occ
  EmergencyStop := traj

/-- A state in `EXEC_TRAJ` that then receives a goal trigger in manual mode
whose global plan succeeds: it is in `REPLAN_TRAJ` with `have_new_target_`
set. -/
def retargetedState (K : Type) [LinearOrderedField K] [FloorRing K] : FSM K :=
  waypointCallback ⟨10, 0, 0⟩ true
    { zeroState K with exec_state_ := .EXEC_TRAJ, target_type_ := MANUAL_TARGET }

/-- A state for `getLocalTarget` with the given reference point, goal, start
and horizon, and with `max_vel_ = max_acc_ = 1`. -/
def geomState (K : Type) [LinearOrderedField K] (init_pt end_pt start_pt : Vec3 K)
    (horizon : K) : FSM K :=
  { zeroState K with
    init_pt_ := init_pt
    end_pt_ := end_pt
    start_pt_ := start_pt
    planning_horizen_ := horizon
    max_vel_ := 1
    max_acc_ := 1 }

/-- A committed trajectory that starts at time 0, lasts `duration` and moves
along the first axis at unit speed. -/
def rampTraj (K : Type) [LinearOrderedField K] (duration : K) : LocalTrajData K :=
  { zeroTraj K with
    duration_ := duration
    position_traj_ := fun t => ⟨t, 0, 0⟩
    velocity_traj_ := fun _ => ⟨1, 0, 0⟩ }

/-- A state in `EXEC_TRAJ` that executes `rampTraj K 2` towards the goal
`(10,0,0)`, with horizon 5 and `max_vel_ = max_acc_ = 1`. -/
def flyingState (K : Type) [LinearOrderedField K] : FSM K :=
  { geomState K ⟨0, 0, 0⟩ ⟨10, 0, 0⟩ ⟨0, 0, 0⟩ 5 with
    exec_state_ := .EXEC_TRAJ
    continously_called_times_ := 1
    trigger_ := true
    have_target_ := true
    have_odom_ := true
    flag_escape_emergency_ := true
    local_data_ := rampTraj K 2 }

/-- An oracle for a run at time 0 in which every optimizer call fails and
leaves the trajectory `rampTraj K 2`, and the points with first coordinate at
least `wall` are occupied. -/
def wallOracle (K : Type) [LinearOrderedField K] (wall : K) : Oracle K :=
  mkOracle 0 (fun _ => false) (rampTraj K 2) fun p => decide (wall ≤ p.x)

/-- The state `flyingState K` after the safety monitor has moved it to
`EMERGENCY_STOP`. -/
def stoppedState (K : Type) [LinearOrderedField K] : FSM K :=
  { flyingState K with exec_state_ := .EMERGENCY_STOP }

/-- Parameters of the execution `stoplessTrace`: manual goals, horizon 5,
thresholds 1, `max_vel_ = max_acc_ = 1`, no committed trajectory yet. -/
def demoParams (K : Type) [LinearOrderedField K] : Params K where
  target_type_ := MANUAL_TARGET
  replan_thresh_ := 1
  no_replan_thresh_ := 1
  planning_horizen_ := 5
  planning_horizen_time_ := 3
  waypoint_num_ := 0
  waypoints_ := fun _ => Vec3.zero
  max_vel_ := 1
  max_acc_ := 1
  local_data_ := zeroTraj K

/-- A stop trajectory: it stays at the origin for `duration`. -/
def holdTraj (K : Type) [LinearOrderedField K] (duration : K) : LocalTrajData K :=
  { zeroTraj K with duration_ := duration }

/-- An oracle for a run at time 0 in which nothing is occupied and every
optimizer call succeeds and commits `rampTraj K 2`. -/
def freeOracle (K : Type) [LinearOrderedField K] : Oracle K :=
  mkOracle 0 (fun _ => true) (rampTraj K 2) fun _ => false

/-- An oracle for a core tick during an emergency stop: `EmergencyStop` commits
`holdTraj K 1`, and optimizer calls fail. -/
def stopOracle (K : Type) [LinearOrderedField K] : Oracle K :=
  mkOracle 0 (fun _ => false) (holdTraj K 1) fun _ => false

/-- An oracle for a run at time 0 in which the points with non-negative first
coordinate are occupied and every optimizer call succeeds and commits
`rampTraj K 2`. -/
def rescueOracle (K : Type) [LinearOrderedField K] : Oracle K :=
  mkOracle 0 (fun _ => true) (rampTraj K 2) fun p => decide (0 ≤ p.x)

/-- An execution with two emergency-stop episodes. Events 1 to 5 bring the
object to `EXEC_TRAJ`; event 6 starts the first episode, in which the core
issues the stop (event 7) and leaves for `GEN_NEW_TRAJ` (event 8). In
`GEN_NEW_TRAJ` the safety monitor finds the stop position occupied, replans
with success and moves to `EXEC_TRAJ` (event 9); it then finds the new
trajectory occupied, fails to replan and starts the second episode (event 10),
which the core tick of event 11 ends. -/
def stoplessTrace (K : Type) [LinearOrderedField K] : List (Event K) :=
  [ .odometry Vec3.zero Vec3.zero (1, 0, 0, 0),
    .waypoint ⟨10, 0, 0⟩ true,
    .execFSM (freeOracle K),
    .execFSM (freeOracle K),
    .execFSM (freeOracle K),
    .checkCollision (wallOracle K 0),
    .execFSM (stopOracle K),
    .execFSM (stopOracle K),
    .checkCollision (rescueOracle K),
    .checkCollision (wallOracle K 0),
    .execFSM (stopOracle K) ]

/-- The fields of the object that decide the course of `stoplessTrace`. -/
def Tracked {K : Type} [LinearOrderedField K] (s : FSM K) (st : FSM_EXEC_STATE)
    (flag : Bool) (traj : LocalTrajData K) (stops : List (Vec3 K)) : Prop :=
  s.exec_state_ = st ∧ s.flag_escape_emergency_ = flag ∧ s.local_data_ = traj ∧
    s.stop_calls_ = stops ∧ s.odom_vel_ = Vec3.zero ∧ s.odom_pos_ = Vec3.zero ∧
    s.have_odom_ = true ∧ s.trigger_ = true ∧ s.have_target_ = true

/-- An oracle for a run at time `now` in which nothing is occupied and every
optimizer call fails, leaving `rampTraj K 2`. -/
def clockOracle (K : Type) [LinearOrderedField K] (now : K) : Oracle K :=
  mkOracle now (fun _ => false) (rampTraj K 2) fun _ => false

/-- The state `flyingState K` moved to `WAIT_TARGET`. -/
def waitingState (K : Type) [LinearOrderedField K] : FSM K :=
  { flyingState K with exec_state_ := .WAIT_TARGET }

/-- The goal that `waypointCallback` stores in `end_pt_` for a trigger at
`pos`. -/
def selectedGoal {K : Type} [LinearOrderedField K] (pos : Vec3 K) (s : FSM K) : Vec3 K :=
  if s.target_type_ = MANUAL_TARGET then ⟨pos.x, pos.y, 1⟩
  else if s.target_type_ = PRESET_TARGET then s.waypoints_ s.current_wp_
  else s.end_pt_

/-- The value that `waypointCallback` leaves in `current_wp_`. -/
def nextWaypointIndex {K : Type} (s : FSM K) : Int :=
  if s.target_type_ = MANUAL_TARGET then s.current_wp_
  else if s.target_type_ = PRESET_TARGET then (s.current_wp_ + 1).tmod s.waypoint_num_
  else s.current_wp_

/-- The object after the statements of `waypointCallback` that precede the
test of the result of `planGlobalTraj`. -/
def afterGoalSelection {K : Type} [LinearOrderedField K] (pos : Vec3 K) (s : FSM K) : FSM K :=
  { s with
    trigger_ := true
    end_pt_ := selectedGoal pos s
    current_wp_ := nextWaypointIndex s
    init_pt_ := s.odom_pos_
    global_plans_ := s.global_plans_ ++ [selectedGoal pos s] }

/-- Whether an event is a goal trigger that passes the altitude check. -/
def Event.passesAltitude {K : Type} [LinearOrderedField K] : Event K → Bool
  | .waypoint pos _ => !decide (pos.z < -(1 / 10))
  | _ => false

/-- A state just initialised in preset mode with the three waypoints
`(1,0,0)`, `(2,0,0)`, `(3,0,0)`. -/
def presetState (K : Type) [LinearOrderedField K] : FSM K :=
  init { demoParams K with
      target_type_ := PRESET_TARGET
      waypoint_num_ := 3
      waypoints_ := fun i => ⟨(i : K) + 1, 0, 0⟩ }
    (zeroState K)

/-- Whether an event is an accepted goal trigger: it passes the altitude
check and its global plan succeeds. -/
def Event.acceptedTrigger {K : Type} [LinearOrderedField K] : Event K → Bool
  | .waypoint pos plan_ok => plan_ok && !decide (pos.z < -(1 / 10))
  | _ => false

/-- The values of `have_new_target_` read by `m` successive calls of
`callReboundReplan` when the first of them finds the value `b`: `b`, then
`false` for every later call. -/
def readsOf (b : Bool) : Nat → List Bool
  | 0 => []
  | m + 1 => b :: List.replicate m false

/-- Relation between the object before and after a piece of execution that
contains no accepted goal trigger: the optimizer calls `cs` were made, the
first of them read the previous value of `have_new_target_` and the later ones
read `false`; the flag keeps its value when no call was made and is cleared
otherwise; and a call that reads `true` hands `true` to the optimizer. -/
def ReadsStep {K : Type} (s s' : FSM K) : Prop :=
  ∃ cs : List ReplanCall,
    s'.replan_calls_ = s.replan_calls_ ++ cs ∧
    s'.new_target_reads_ = s.new_target_reads_ ++ readsOf s.have_new_target_ cs.length ∧
    s'.have_new_target_ = (if cs = [] then s.have_new_target_ else false) ∧
    (s.have_new_target_ = true → ∀ c : ReplanCall, cs.head? = some c → c.flag_polyInit = true)

/-! ## Theorems -/

section Theorems

open FSM_EXEC_STATE

/-! ### Field lemmas -/

theorem changeFSMExecState_exec_state {K : Type} (n : FSM_EXEC_STATE) (s : FSM K) :
    (changeFSMExecState n s).exec_state_ = n := by
  unfold changeFSMExecState
  split <;> rfl

theorem changeFSMExecState_counter {K : Type} (n : FSM_EXEC_STATE) (s : FSM K) :
    (changeFSMExecState n s).continously_called_times_ =
      if n = s.exec_state_ then s.continously_called_times_ + 1 else 1 := by
  unfold changeFSMExecState
  split <;> rfl

theorem countFsmNum_exec_state {K : Type} (s : FSM K) : (countFsmNum s).exec_state_ = s.exec_state_ := by
  unfold countFsmNum
  split <;> rfl

/-! ### The transition table -/

/-- Claim C1. For every run of the core tick `execFSMCallback`, from every
state and for every oracle, the state after the tick is the state before it or
is joined to it by an edge of the transition table. -/
theorem execFSMCallback_follows_table {K : Type} [LinearOrderedField K]
    (sqrt : K → K) (o : Oracle K) (s : FSM K) :
    (execFSMCallback sqrt o s).exec_state_ = s.exec_state_ ∨
      tableEdge s.exec_state_ (execFSMCallback sqrt o s).exec_state_ = true := by
  have h := countFsmNum_exec_state s
  unfold execFSMCallback
  simp only []
  split <;> rename_i heq <;> rw [h] at heq <;> rw [heq] <;> split_ifs <;>
    simp [changeFSMExecState_exec_state, publishDataDisp, callEmergencyStop, tableEdge, h, heq]

/-- Claim C2. For every state `s` (with counter value `c`) and requested state
`n`, `changeFSMExecState n` sets the state to `n` and the counter to `c + 1`
when `n` is the state of `s` and to `1` otherwise. -/
theorem changeFSMExecState_spec {K : Type} (n : FSM_EXEC_STATE) (s : FSM K) :
    (changeFSMExecState n s).exec_state_ = n ∧
      (changeFSMExecState n s).continously_called_times_ =
        if n = s.exec_state_ then s.continously_called_times_ + 1 else 1 :=
  ⟨changeFSMExecState_exec_state n s, changeFSMExecState_counter n s⟩

/-! ### The escalation of `planFromCurrentTraj` -/

theorem getLocalTarget_eq {K : Type} [LinearOrderedField K]
    (sqrt : K → K) (s : FSM K) :
    getLocalTarget sqrt s =
      { s with
        local_target_pt_ := (getLocalTarget sqrt s).local_target_pt_
        local_target_vel_ := (getLocalTarget sqrt s).local_target_vel_ } := by
  unfold getLocalTarget setLocalTargetVel setLocalTargetPt
  split_ifs <;> rfl

theorem callReboundReplan_fst {K : Type} [LinearOrderedField K]
    (sqrt : K → K) (r : ReplanOutcome K) (f g : Bool) (s : FSM K) :
    (callReboundReplan sqrt r f g s).1 = r.success := by
  unfold callReboundReplan
  cases r.success <;> simp

theorem callReboundReplan_snd {K : Type} [LinearOrderedField K]
    (sqrt : K → K) (r : ReplanOutcome K) (f g : Bool) (s : FSM K) :
    (callReboundReplan sqrt r f g s).2 =
      { s with
        local_target_pt_ := (getLocalTarget sqrt s).local_target_pt_
        local_target_vel_ := (getLocalTarget sqrt s).local_target_vel_
        replan_calls_ := s.replan_calls_ ++ [⟨s.have_new_target_ || f, g⟩]
        new_target_reads_ := s.new_target_reads_ ++ [s.have_new_target_]
        local_data_ := r.local_data
        have_new_target_ := false
        bspline_pubs_ := if r.success then s.bspline_pubs_ + 1 else s.bspline_pubs_ } := by
  unfold callReboundReplan
  rw [getLocalTarget_eq]
  cases r.success <;> simp

theorem planFromCurrentTraj_fst {K : Type} [LinearOrderedField K]
    (sqrt : K → K) (o : Oracle K) (s : FSM K) :
    (planFromCurrentTraj sqrt o s).1 =
      ((o.reboundReplan 0).success || (o.reboundReplan 1).success ||
        (o.reboundReplan 2).success) := by
  unfold planFromCurrentTraj
  simp only [callReboundReplan_fst]
  cases (o.reboundReplan 0).success <;> cases (o.reboundReplan 1).success <;>
    cases (o.reboundReplan 2).success <;> simp

theorem planFromCurrentTraj_calls {K : Type} [LinearOrderedField K]
    (sqrt : K → K) (o : Oracle K) (s : FSM K) :
    (planFromCurrentTraj sqrt o s).2.replan_calls_ =
      s.replan_calls_ ++ (escalation s.have_new_target_).take (attempts o) := by
  unfold planFromCurrentTraj attempts escalation
  simp only [callReboundReplan_fst, callReboundReplan_snd]
  cases (o.reboundReplan 0).success <;> cases (o.reboundReplan 1).success <;>
    cases (o.reboundReplan 2).success <;> simp

/-- Claim C3, as amended. `planFromCurrentTraj` issues the first `n` calls of
the list [(`have_new_target_` on entry, no randomization), (forced
re-initialization, no randomization), (forced re-initialization, randomization)]
where `1 ≤ n ≤ 3`; every call before the last one failed, the last one
succeeded unless `n = 3`, and the result is `false` exactly when three calls
were made and all three failed. The first call is the warm start of the claim
exactly when `have_new_target_` is false on entry. -/
theorem planFromCurrentTraj_escalation {K : Type} [LinearOrderedField K]
    (sqrt : K → K) (o : Oracle K) (s : FSM K) :
    ∃ n : Nat, 1 ≤ n ∧ n ≤ 3 ∧
      (planFromCurrentTraj sqrt o s).2.replan_calls_ =
        s.replan_calls_ ++ (escalation s.have_new_target_).take n ∧
      (∀ i : Nat, i + 1 < n → (o.reboundReplan i).success = false) ∧
      (n < 3 → (o.reboundReplan (n - 1)).success = true) ∧
      ((planFromCurrentTraj sqrt o s).1 = false ↔
        n = 3 ∧ ∀ i : Nat, i < 3 → (o.reboundReplan i).success = false) ∧
      (escalation false = escalationClaimed) := by
  refine ⟨attempts o, ?_, ?_, planFromCurrentTraj_calls sqrt o s, ?_, ?_, ?_, rfl⟩
  · unfold attempts; split_ifs <;> omega
  · unfold attempts; split_ifs <;> omega
  · intro i hi
    unfold attempts at hi
    split_ifs at hi with h0 h1
    · omega
    · have : i = 0 := by omega
      subst this; simpa using h0
    · rcases (show i = 0 ∨ i = 1 by omega) with rfl | rfl
      · simpa using h0
      · simpa using h1
  · intro hn
    unfold attempts at hn ⊢
    split_ifs at hn ⊢ with h0 h1
    · simpa using h0
    · simpa using h1
    · omega
  · rw [planFromCurrentTraj_fst]
    unfold attempts
    constructor
    · intro h
      simp only [Bool.or_eq_false_iff] at h
      obtain ⟨⟨h0, h1⟩, h2⟩ := h
      refine ⟨by simp [h0, h1], ?_⟩
      intro i hi
      rcases (show i = 0 ∨ i = 1 ∨ i = 2 by omega) with rfl | rfl | rfl
      · exact h0
      · exact h1
      · exact h2
    · rintro ⟨-, h⟩
      simp [h 0 (by omega), h 1 (by omega), h 2 (by omega)]

/-- Claim C3 fails as stated. After a goal trigger received in `EXEC_TRAJ`
the object is in `REPLAN_TRAJ` with `have_new_target_` set; the single call
that `planFromCurrentTraj` then makes (the optimizer succeeds at once) carries
the re-initialization flag, so the calls issued are not an initial segment of
the claimed list, whose first entry has no re-initialization. -/
theorem planFromCurrentTraj_first_call_not_warm :
    (retargetedState ℝ).exec_state_ = REPLAN_TRAJ ∧
      (planFromCurrentTraj Real.sqrt (mkOracle 0 (fun _ => true) (zeroTraj ℝ) fun _ => false)
        (retargetedState ℝ)).2.replan_calls_ = [⟨true, false⟩] ∧
      ∀ n : Nat, ([⟨true, false⟩] : List ReplanCall) ≠ escalationClaimed.take n := by
  have hs : (retargetedState ℝ).have_new_target_ = true ∧
      (retargetedState ℝ).replan_calls_ = [] ∧
      (retargetedState ℝ).exec_state_ = REPLAN_TRAJ := by
    unfold retargetedState waypointCallback
    norm_num [zeroState, changeFSMExecState, MANUAL_TARGET]
    simp
  refine ⟨hs.2.2, ?_, ?_⟩
  · rw [planFromCurrentTraj_calls, hs.1, hs.2.1]
    simp [attempts, mkOracle, escalation]
  · intro n
    rcases n with _ | _ | _ | n <;> simp [escalationClaimed]

/-! ### Square roots and vectors -/

theorem IsSqrt.nonneg {K : Type} [LinearOrderedField K] {sqrt : K → K} (h : IsSqrt sqrt)
    {x : K} (hx : 0 ≤ x) : 0 ≤ sqrt x := (h x hx).1

theorem IsSqrt.mul_self {K : Type} [LinearOrderedField K] {sqrt : K → K} (h : IsSqrt sqrt)
    {x : K} (hx : 0 ≤ x) : sqrt x * sqrt x = x := (h x hx).2

theorem IsSqrt.eq_of_mul_self {K : Type} [LinearOrderedField K] {sqrt : K → K}
    (h : IsSqrt sqrt) {x y : K} (hy : 0 ≤ y) (hxy : y * y = x) : sqrt x = y := by
  have hx : 0 ≤ x := by rw [← hxy]; exact mul_self_nonneg y
  have h1 := h.mul_self hx
  have h2 := h.nonneg hx
  exact (mul_self_inj h2 hy).1 (by rw [h1, hxy])

theorem IsSqrt.zero {K : Type} [LinearOrderedField K] {sqrt : K → K} (h : IsSqrt sqrt) :
    sqrt 0 = 0 := h.eq_of_mul_self le_rfl (by simp)

theorem IsSqrt.sqrt_mul_self_abs {K : Type} [LinearOrderedField K] {sqrt : K → K}
    (h : IsSqrt sqrt) (x : K) : sqrt (x * x) = |x| :=
  h.eq_of_mul_self (abs_nonneg x) (abs_mul_abs_self x)

theorem isSqrt_real : IsSqrt Real.sqrt :=
  fun x hx => ⟨Real.sqrt_nonneg x, Real.mul_self_sqrt hx⟩

theorem Vec3.squaredNorm_nonneg {K : Type} [LinearOrderedField K] (v : Vec3 K) :
    0 ≤ v.squaredNorm := by
  unfold Vec3.squaredNorm
  have h1 := mul_self_nonneg v.x
  have h2 := mul_self_nonneg v.y
  have h3 := mul_self_nonneg v.z
  linarith

theorem Vec3.squaredNorm_sub_self {K : Type} [LinearOrderedField K] (v : Vec3 K) :
    (v.sub v).squaredNorm = 0 := by
  simp [Vec3.squaredNorm, Vec3.sub]

theorem Vec3.squaredNorm_pos_of_ne {K : Type} [LinearOrderedField K] {u v : Vec3 K}
    (h : u ≠ v) : 0 < (u.sub v).squaredNorm := by
  rcases lt_or_eq_of_le (Vec3.squaredNorm_nonneg (u.sub v)) with hpos | hzero
  · exact hpos
  · exfalso
    apply h
    unfold Vec3.squaredNorm Vec3.sub at hzero
    simp only at hzero
    have h1 := mul_self_nonneg (u.x - v.x)
    have h2 := mul_self_nonneg (u.y - v.y)
    have h3 := mul_self_nonneg (u.z - v.z)
    have hx : (u.x - v.x) * (u.x - v.x) = 0 := by linarith
    have hy : (u.y - v.y) * (u.y - v.y) = 0 := by linarith
    have hz : (u.z - v.z) * (u.z - v.z) = 0 := by linarith
    ext
    · exact sub_eq_zero.1 (mul_self_eq_zero.1 hx)
    · exact sub_eq_zero.1 (mul_self_eq_zero.1 hy)
    · exact sub_eq_zero.1 (mul_self_eq_zero.1 hz)

theorem Vec3.norm_nonneg {K : Type} [LinearOrderedField K] {sqrt : K → K} (h : IsSqrt sqrt)
    (v : Vec3 K) : 0 ≤ v.norm sqrt :=
  h.nonneg (Vec3.squaredNorm_nonneg v)

theorem brakeDist_pos {K : Type} [LinearOrderedField K] (s : FSM K)
    (hv : 0 < s.max_vel_) (ha : 0 < s.max_acc_) : 0 < brakeDist s := by
  unfold brakeDist
  positivity

/-! ### `getLocalTarget`: the arrival case -/

theorem getLocalTarget_pt {K : Type} [LinearOrderedField K] (sqrt : K → K) (s : FSM K) :
    (getLocalTarget sqrt s).local_target_pt_ =
      if (s.end_pt_.sub s.start_pt_).norm sqrt < s.planning_horizen_ then s.end_pt_
      else s.init_pt_.add ((s.end_pt_.sub s.init_pt_).smul (lineParam sqrt s)) := by
  unfold getLocalTarget setLocalTargetVel setLocalTargetPt
  split_ifs <;> rfl

/-- Claim C4, as amended. When the distance from the start to the goal is
strictly smaller than the horizon (and `max_vel_`, `max_acc_` are positive),
`getLocalTarget` sets the local target to the goal and the local target
velocity to the zero vector. -/
theorem getLocalTarget_arrival {K : Type} [LinearOrderedField K] (sqrt : K → K)
    (hsq : IsSqrt sqrt) (s : FSM K)
    (harr : (s.end_pt_.sub s.start_pt_).norm sqrt < s.planning_horizen_)
    (hv : 0 < s.max_vel_) (ha : 0 < s.max_acc_) :
    (getLocalTarget sqrt s).local_target_pt_ = s.end_pt_ ∧
      (getLocalTarget sqrt s).local_target_vel_ = Vec3.zero := by
  have hb := brakeDist_pos s hv ha
  have h0 : (s.end_pt_.sub s.end_pt_).norm sqrt = 0 := by
    unfold Vec3.norm
    rw [Vec3.squaredNorm_sub_self, hsq.zero]
  constructor
  · rw [getLocalTarget_pt, if_pos harr]
  · unfold getLocalTarget setLocalTargetVel setLocalTargetPt
    rw [if_pos harr]
    simp only []
    have hb' : brakeDist { s with local_target_pt_ := s.end_pt_ } = brakeDist s := rfl
    rw [hb', h0, if_pos hb]
    simp [Vec3.smul, Vec3.zero]

theorem Vec3.norm_eq_of_mul_self {K : Type} [LinearOrderedField K] {sqrt : K → K}
    (h : IsSqrt sqrt) (v : Vec3 K) {y : K} (hy : 0 ≤ y) (hxy : y * y = v.squaredNorm) :
    v.norm sqrt = y :=
  h.eq_of_mul_self hy hxy

/-- Instance of `getLocalTarget_arrival`: reference point and start at the
origin, goal `(3,0,0)`, horizon 5. -/
theorem getLocalTarget_arrival_witness :
    ((geomState ℝ ⟨0, 0, 0⟩ ⟨3, 0, 0⟩ ⟨0, 0, 0⟩ 5).end_pt_.sub
        (geomState ℝ ⟨0, 0, 0⟩ ⟨3, 0, 0⟩ ⟨0, 0, 0⟩ 5).start_pt_).norm Real.sqrt <
        (geomState ℝ ⟨0, 0, 0⟩ ⟨3, 0, 0⟩ ⟨0, 0, 0⟩ 5).planning_horizen_ ∧
      (getLocalTarget Real.sqrt (geomState ℝ ⟨0, 0, 0⟩ ⟨3, 0, 0⟩ ⟨0, 0, 0⟩ 5)).local_target_pt_ =
        ⟨3, 0, 0⟩ ∧
      (getLocalTarget Real.sqrt (geomState ℝ ⟨0, 0, 0⟩ ⟨3, 0, 0⟩ ⟨0, 0, 0⟩ 5)).local_target_vel_ =
        Vec3.zero := by
  have harr : ((geomState ℝ ⟨0, 0, 0⟩ ⟨3, 0, 0⟩ ⟨0, 0, 0⟩ 5).end_pt_.sub
      (geomState ℝ ⟨0, 0, 0⟩ ⟨3, 0, 0⟩ ⟨0, 0, 0⟩ 5).start_pt_).norm Real.sqrt <
      (geomState ℝ ⟨0, 0, 0⟩ ⟨3, 0, 0⟩ ⟨0, 0, 0⟩ 5).planning_horizen_ := by
    rw [Vec3.norm_eq_of_mul_self isSqrt_real _ (show (0 : ℝ) ≤ 3 by norm_num)
      (by norm_num [geomState, Vec3.sub, Vec3.squaredNorm])]
    norm_num [geomState]
  exact ⟨harr, getLocalTarget_arrival Real.sqrt isSqrt_real
    (geomState ℝ ⟨0, 0, 0⟩ ⟨3, 0, 0⟩ ⟨0, 0, 0⟩ 5) harr
    (by norm_num [geomState]) (by norm_num [geomState])⟩

/-- Claim C4 fails as stated. With reference point `(0,0,0)`, goal `(10,0,0)`,
start `(15,0,0)` and horizon 5 the distance from the start to the goal equals
the horizon, so the claim's condition holds, but the comparison of the source
is strict: the `else` branch runs and the local target is `(20,0,0)`, not the
goal. -/
theorem getLocalTarget_boundary_not_goal :
    ((geomState ℝ ⟨0, 0, 0⟩ ⟨10, 0, 0⟩ ⟨15, 0, 0⟩ 5).end_pt_.sub
        (geomState ℝ ⟨0, 0, 0⟩ ⟨10, 0, 0⟩ ⟨15, 0, 0⟩ 5).start_pt_).norm Real.sqrt ≤
        (geomState ℝ ⟨0, 0, 0⟩ ⟨10, 0, 0⟩ ⟨15, 0, 0⟩ 5).planning_horizen_ ∧
      0 < (geomState ℝ ⟨0, 0, 0⟩ ⟨10, 0, 0⟩ ⟨15, 0, 0⟩ 5).max_vel_ ∧
      0 < (geomState ℝ ⟨0, 0, 0⟩ ⟨10, 0, 0⟩ ⟨15, 0, 0⟩ 5).max_acc_ ∧
      (getLocalTarget Real.sqrt
        (geomState ℝ ⟨0, 0, 0⟩ ⟨10, 0, 0⟩ ⟨15, 0, 0⟩ 5)).local_target_pt_ = ⟨20, 0, 0⟩ ∧
      (getLocalTarget Real.sqrt
        (geomState ℝ ⟨0, 0, 0⟩ ⟨10, 0, 0⟩ ⟨15, 0, 0⟩ 5)).local_target_pt_ ≠
        (geomState ℝ ⟨0, 0, 0⟩ ⟨10, 0, 0⟩ ⟨15, 0, 0⟩ 5).end_pt_ := by
  have hn : ((geomState ℝ ⟨0, 0, 0⟩ ⟨10, 0, 0⟩ ⟨15, 0, 0⟩ 5).end_pt_.sub
      (geomState ℝ ⟨0, 0, 0⟩ ⟨10, 0, 0⟩ ⟨15, 0, 0⟩ 5).start_pt_).norm Real.sqrt = 5 :=
    Vec3.norm_eq_of_mul_self isSqrt_real _ (by norm_num)
      (by norm_num [geomState, Vec3.sub, Vec3.squaredNorm])
  have hd : quadDisc (geomState ℝ ⟨0, 0, 0⟩ ⟨10, 0, 0⟩ ⟨15, 0, 0⟩ 5) = 10000 := by
    norm_num [quadDisc, quadA, quadB, quadC, geomState, zeroState, Vec3.sub, Vec3.dot,
      Vec3.squaredNorm]
  have hs : Real.sqrt 10000 = 100 :=
    isSqrt_real.eq_of_mul_self (by norm_num) (by norm_num)
  have ht : lineParam Real.sqrt (geomState ℝ ⟨0, 0, 0⟩ ⟨10, 0, 0⟩ ⟨15, 0, 0⟩ 5) = 2 := by
    unfold lineParam
    rw [hd, if_pos (by norm_num), hs]
    norm_num [quadA, quadB, geomState, zeroState, Vec3.sub, Vec3.dot, Vec3.squaredNorm]
  have hp : (getLocalTarget Real.sqrt
      (geomState ℝ ⟨0, 0, 0⟩ ⟨10, 0, 0⟩ ⟨15, 0, 0⟩ 5)).local_target_pt_ = ⟨20, 0, 0⟩ := by
    rw [getLocalTarget_pt, hn, if_neg (by norm_num [geomState]), ht]
    norm_num [geomState, zeroState, Vec3.sub, Vec3.add, Vec3.smul]
  refine ⟨?_, by norm_num [geomState], by norm_num [geomState], hp, ?_⟩
  · rw [hn]; norm_num [geomState]
  · rw [hp]
    norm_num [geomState]

/-! ### `getLocalTarget`: the intersection with the horizon sphere -/

theorem quadDisc_eq_zero_of_eq {K : Type} [LinearOrderedField K] (s : FSM K)
    (h : s.end_pt_ = s.init_pt_) : quadDisc s = 0 := by
  unfold quadDisc quadA quadB
  rw [h]
  simp [Vec3.sub, Vec3.dot, Vec3.squaredNorm]

theorem quadA_pos {K : Type} [LinearOrderedField K] (s : FSM K)
    (h : s.end_pt_ ≠ s.init_pt_) : 0 < quadA s :=
  Vec3.squaredNorm_pos_of_ne h

/-- The squared distance from the start to the point `M + N*t` of the
reference line is `a*t*t + b*t + c + h*h`. -/
theorem squaredNorm_line_point {K : Type} [LinearOrderedField K] (s : FSM K) (t : K) :
    ((s.init_pt_.add ((s.end_pt_.sub s.init_pt_).smul t)).sub s.start_pt_).squaredNorm =
      quadA s * t * t + quadB s * t + quadC s +
        s.planning_horizen_ * s.planning_horizen_ := by
  unfold quadA quadB quadC Vec3.squaredNorm Vec3.dot Vec3.sub Vec3.add Vec3.smul
  simp only
  ring

theorem lineParam_root {K : Type} [LinearOrderedField K] {sqrt : K → K} (hsq : IsSqrt sqrt)
    (s : FSM K) (hdisc : 0 < quadDisc s) :
    quadA s * lineParam sqrt s * lineParam sqrt s + quadB s * lineParam sqrt s + quadC s = 0 := by
  have ha : 0 < quadA s := by
    by_contra hne
    have : s.end_pt_ = s.init_pt_ := by
      by_contra hne'
      exact hne (quadA_pos s hne')
    rw [quadDisc_eq_zero_of_eq s this] at hdisc
    exact lt_irrefl _ hdisc
  have hr := hsq.mul_self hdisc.le
  have ht : 2 * quadA s * lineParam sqrt s = -quadB s + sqrt (quadDisc s) := by
    unfold lineParam
    rw [if_pos hdisc]
    field_simp
  have h4 : 4 * quadA s *
      (quadA s * lineParam sqrt s * lineParam sqrt s + quadB s * lineParam sqrt s + quadC s)
      = 0 := by
    have hd : quadDisc s = quadB s * quadB s - 4 * quadA s * quadC s := rfl
    linear_combination
      (2 * quadA s * lineParam sqrt s + sqrt (quadDisc s) + quadB s) * ht + hr + hd
  rcases mul_eq_zero.1 h4 with h | h
  · exfalso; linarith
  · exact h

theorem lineParam_largest {K : Type} [LinearOrderedField K] {sqrt : K → K} (hsq : IsSqrt sqrt)
    (s : FSM K) (hdisc : 0 < quadDisc s) (t : K)
    (ht : quadA s * t * t + quadB s * t + quadC s = 0) : t ≤ lineParam sqrt s := by
  have ha : 0 < quadA s := by
    by_contra hne
    have : s.end_pt_ = s.init_pt_ := by
      by_contra hne'
      exact hne (quadA_pos s hne')
    rw [quadDisc_eq_zero_of_eq s this] at hdisc
    exact lt_irrefl _ hdisc
  have hr := hsq.mul_self hdisc.le
  have hr0 := hsq.nonneg hdisc.le
  have hd : quadDisc s = quadB s * quadB s - 4 * quadA s * quadC s := rfl
  have hsq' : (2 * quadA s * t + quadB s) * (2 * quadA s * t + quadB s) =
      sqrt (quadDisc s) * sqrt (quadDisc s) := by
    rw [hr, hd]
    linear_combination 4 * quadA s * ht
  have hle : 2 * quadA s * t + quadB s ≤ sqrt (quadDisc s) := by
    by_contra hlt
    push_neg at hlt
    have := mul_self_lt_mul_self hr0 hlt
    linarith
  unfold lineParam
  rw [if_pos hdisc, le_div_iff₀ (by linarith)]
  linarith

/-- Claim C5, as amended. Outside the arrival case of the source (the distance
from the start to the goal is not below the horizon) and with positive
discriminant, `getLocalTarget` returns `M + N*t` where
`t = (-b + sqrt (b*b - 4*a*c)) / (2*a)` is a root of `a*t*t + b*t + c` and no
root is larger; the point lies at distance `|horizon|` from the start, which
is the horizon whenever the horizon is not negative. For `M = (0,0,0)`, goal
`(10,0,0)`, start `(0,0,0)` and horizon 5 the local target is `(5,0,0)`. -/
theorem getLocalTarget_larger_root {K : Type} [LinearOrderedField K] (sqrt : K → K)
    (hsq : IsSqrt sqrt) (s : FSM K)
    (hout : ¬ (s.end_pt_.sub s.start_pt_).norm sqrt < s.planning_horizen_)
    (hdisc : 0 < quadDisc s) :
    (getLocalTarget sqrt s).local_target_pt_ =
        s.init_pt_.add ((s.end_pt_.sub s.init_pt_).smul (lineParam sqrt s)) ∧
      lineParam sqrt s = (-quadB s + sqrt (quadDisc s)) / (2 * quadA s) ∧
      quadA s * lineParam sqrt s * lineParam sqrt s + quadB s * lineParam sqrt s + quadC s = 0 ∧
      (∀ t : K, quadA s * t * t + quadB s * t + quadC s = 0 → t ≤ lineParam sqrt s) ∧
      ((getLocalTarget sqrt s).local_target_pt_.sub s.start_pt_).norm sqrt =
        |s.planning_horizen_| ∧
      (0 ≤ s.planning_horizen_ →
        ((getLocalTarget sqrt s).local_target_pt_.sub s.start_pt_).norm sqrt =
          s.planning_horizen_) ∧
      (getLocalTarget sqrt (geomState K ⟨0, 0, 0⟩ ⟨10, 0, 0⟩ ⟨0, 0, 0⟩ 5)).local_target_pt_ =
        ⟨5, 0, 0⟩ := by
  have hp : (getLocalTarget sqrt s).local_target_pt_ =
      s.init_pt_.add ((s.end_pt_.sub s.init_pt_).smul (lineParam sqrt s)) := by
    rw [getLocalTarget_pt, if_neg hout]
  have hroot := lineParam_root hsq s hdisc
  have hdist : ((getLocalTarget sqrt s).local_target_pt_.sub s.start_pt_).norm sqrt =
      |s.planning_horizen_| := by
    rw [hp]
    unfold Vec3.norm
    rw [squaredNorm_line_point, hroot, zero_add]
    exact hsq.sqrt_mul_self_abs _
  refine ⟨hp, ?_, hroot, lineParam_largest hsq s hdisc, hdist, ?_, ?_⟩
  · unfold lineParam
    rw [if_pos hdisc]
  · intro h0
    rw [hdist, abs_of_nonneg h0]
  · have hn : ((geomState K ⟨0, 0, 0⟩ ⟨10, 0, 0⟩ ⟨0, 0, 0⟩ 5).end_pt_.sub
        (geomState K ⟨0, 0, 0⟩ ⟨10, 0, 0⟩ ⟨0, 0, 0⟩ 5).start_pt_).norm sqrt = 10 :=
      Vec3.norm_eq_of_mul_self hsq _ (by norm_num)
        (by norm_num [geomState, Vec3.sub, Vec3.squaredNorm])
    have hd : quadDisc (geomState K ⟨0, 0, 0⟩ ⟨10, 0, 0⟩ ⟨0, 0, 0⟩ 5) = 10000 := by
      norm_num [quadDisc, quadA, quadB, quadC, geomState, zeroState, Vec3.sub, Vec3.dot,
        Vec3.squaredNorm]
    have hs : sqrt 10000 = 100 := hsq.eq_of_mul_self (by norm_num) (by norm_num)
    have ht : lineParam sqrt (geomState K ⟨0, 0, 0⟩ ⟨10, 0, 0⟩ ⟨0, 0, 0⟩ 5) = 1 / 2 := by
      unfold lineParam
      rw [hd, if_pos (by norm_num), hs]
      norm_num [quadA, quadB, geomState, zeroState, Vec3.sub, Vec3.dot, Vec3.squaredNorm]
    rw [getLocalTarget_pt, hn, if_neg (by norm_num [geomState]), ht]
    norm_num [geomState, zeroState, Vec3.sub, Vec3.add, Vec3.smul]

/-- Instance of `getLocalTarget_larger_root`: reference point and start at the
origin, goal `(10,0,0)`, horizon 5; the local target is at distance 5 from
the start. -/
theorem getLocalTarget_larger_root_witness :
    (¬ ((geomState ℝ ⟨0, 0, 0⟩ ⟨10, 0, 0⟩ ⟨0, 0, 0⟩ 5).end_pt_.sub
        (geomState ℝ ⟨0, 0, 0⟩ ⟨10, 0, 0⟩ ⟨0, 0, 0⟩ 5).start_pt_).norm Real.sqrt <
        (geomState ℝ ⟨0, 0, 0⟩ ⟨10, 0, 0⟩ ⟨0, 0, 0⟩ 5).planning_horizen_) ∧
      0 < quadDisc (geomState ℝ ⟨0, 0, 0⟩ ⟨10, 0, 0⟩ ⟨0, 0, 0⟩ 5) ∧
      ((getLocalTarget Real.sqrt
          (geomState ℝ ⟨0, 0, 0⟩ ⟨10, 0, 0⟩ ⟨0, 0, 0⟩ 5)).local_target_pt_.sub
        (geomState ℝ ⟨0, 0, 0⟩ ⟨10, 0, 0⟩ ⟨0, 0, 0⟩ 5).start_pt_).norm Real.sqrt =
        |(geomState ℝ ⟨0, 0, 0⟩ ⟨10, 0, 0⟩ ⟨0, 0, 0⟩ 5).planning_horizen_| := by
  have hn : ((geomState ℝ ⟨0, 0, 0⟩ ⟨10, 0, 0⟩ ⟨0, 0, 0⟩ 5).end_pt_.sub
      (geomState ℝ ⟨0, 0, 0⟩ ⟨10, 0, 0⟩ ⟨0, 0, 0⟩ 5).start_pt_).norm Real.sqrt = 10 :=
    Vec3.norm_eq_of_mul_self isSqrt_real _ (by norm_num)
      (by norm_num [geomState, Vec3.sub, Vec3.squaredNorm])
  have hout : ¬ ((geomState ℝ ⟨0, 0, 0⟩ ⟨10, 0, 0⟩ ⟨0, 0, 0⟩ 5).end_pt_.sub
      (geomState ℝ ⟨0, 0, 0⟩ ⟨10, 0, 0⟩ ⟨0, 0, 0⟩ 5).start_pt_).norm Real.sqrt <
      (geomState ℝ ⟨0, 0, 0⟩ ⟨10, 0, 0⟩ ⟨0, 0, 0⟩ 5).planning_horizen_ := by
    rw [hn]; norm_num [geomState]
  have hdisc : 0 < quadDisc (geomState ℝ ⟨0, 0, 0⟩ ⟨10, 0, 0⟩ ⟨0, 0, 0⟩ 5) := by
    norm_num [quadDisc, quadA, quadB, quadC, geomState, zeroState, Vec3.sub, Vec3.dot,
      Vec3.squaredNorm]
  exact ⟨hout, hdisc, (getLocalTarget_larger_root Real.sqrt isSqrt_real
    (geomState ℝ ⟨0, 0, 0⟩ ⟨10, 0, 0⟩ ⟨0, 0, 0⟩ 5) hout hdisc).2.2.2.2.1⟩

/-- Claim C5 fails as stated. With the horizon at -1 (the value the parameter
has when it is not configured), reference point and start at the origin and
goal `(10,0,0)`, the input is outside the arrival case and the discriminant is
400; the local target is `(1,0,0)`, at distance 1 from the start, which is not
the horizon. -/
theorem getLocalTarget_negative_horizon :
    (geomState ℝ ⟨0, 0, 0⟩ ⟨10, 0, 0⟩ ⟨0, 0, 0⟩ (-1)).planning_horizen_ <
        ((geomState ℝ ⟨0, 0, 0⟩ ⟨10, 0, 0⟩ ⟨0, 0, 0⟩ (-1)).end_pt_.sub
          (geomState ℝ ⟨0, 0, 0⟩ ⟨10, 0, 0⟩ ⟨0, 0, 0⟩ (-1)).start_pt_).norm Real.sqrt ∧
      quadDisc (geomState ℝ ⟨0, 0, 0⟩ ⟨10, 0, 0⟩ ⟨0, 0, 0⟩ (-1)) = 400 ∧
      (getLocalTarget Real.sqrt
        (geomState ℝ ⟨0, 0, 0⟩ ⟨10, 0, 0⟩ ⟨0, 0, 0⟩ (-1))).local_target_pt_ = ⟨1, 0, 0⟩ ∧
      ((getLocalTarget Real.sqrt
          (geomState ℝ ⟨0, 0, 0⟩ ⟨10, 0, 0⟩ ⟨0, 0, 0⟩ (-1))).local_target_pt_.sub
        (geomState ℝ ⟨0, 0, 0⟩ ⟨10, 0, 0⟩ ⟨0, 0, 0⟩ (-1)).start_pt_).norm Real.sqrt = 1 ∧
      ((getLocalTarget Real.sqrt
          (geomState ℝ ⟨0, 0, 0⟩ ⟨10, 0, 0⟩ ⟨0, 0, 0⟩ (-1))).local_target_pt_.sub
        (geomState ℝ ⟨0, 0, 0⟩ ⟨10, 0, 0⟩ ⟨0, 0, 0⟩ (-1)).start_pt_).norm Real.sqrt ≠
        (geomState ℝ ⟨0, 0, 0⟩ ⟨10, 0, 0⟩ ⟨0, 0, 0⟩ (-1)).planning_horizen_ := by
  have hn : ((geomState ℝ ⟨0, 0, 0⟩ ⟨10, 0, 0⟩ ⟨0, 0, 0⟩ (-1)).end_pt_.sub
      (geomState ℝ ⟨0, 0, 0⟩ ⟨10, 0, 0⟩ ⟨0, 0, 0⟩ (-1)).start_pt_).norm Real.sqrt = 10 :=
    Vec3.norm_eq_of_mul_self isSqrt_real _ (by norm_num)
      (by norm_num [geomState, Vec3.sub, Vec3.squaredNorm])
  have hd : quadDisc (geomState ℝ ⟨0, 0, 0⟩ ⟨10, 0, 0⟩ ⟨0, 0, 0⟩ (-1)) = 400 := by
    norm_num [quadDisc, quadA, quadB, quadC, geomState, zeroState, Vec3.sub, Vec3.dot,
      Vec3.squaredNorm]
  have hs : Real.sqrt 400 = 20 := isSqrt_real.eq_of_mul_self (by norm_num) (by norm_num)
  have ht : lineParam Real.sqrt (geomState ℝ ⟨0, 0, 0⟩ ⟨10, 0, 0⟩ ⟨0, 0, 0⟩ (-1)) = 1 / 10 := by
    unfold lineParam
    rw [hd, if_pos (by norm_num), hs]
    norm_num [quadA, quadB, geomState, zeroState, Vec3.sub, Vec3.dot, Vec3.squaredNorm]
  have hp : (getLocalTarget Real.sqrt
      (geomState ℝ ⟨0, 0, 0⟩ ⟨10, 0, 0⟩ ⟨0, 0, 0⟩ (-1))).local_target_pt_ = ⟨1, 0, 0⟩ := by
    rw [getLocalTarget_pt, hn, if_neg (by norm_num [geomState]), ht]
    norm_num [geomState, zeroState, Vec3.sub, Vec3.add, Vec3.smul]
  have hdist : ((getLocalTarget Real.sqrt
      (geomState ℝ ⟨0, 0, 0⟩ ⟨10, 0, 0⟩ ⟨0, 0, 0⟩ (-1))).local_target_pt_.sub
      (geomState ℝ ⟨0, 0, 0⟩ ⟨10, 0, 0⟩ ⟨0, 0, 0⟩ (-1)).start_pt_).norm Real.sqrt = 1 := by
    rw [hp]
    exact Vec3.norm_eq_of_mul_self isSqrt_real _ (by norm_num)
      (by norm_num [geomState, Vec3.sub, Vec3.squaredNorm])
  refine ⟨?_, hd, hp, hdist, ?_⟩
  · rw [hn]; norm_num [geomState]
  · rw [hdist]; norm_num [geomState]

/-! ### `getLocalTarget`: the velocity -/

theorem setLocalTargetPt_eq {K : Type} [LinearOrderedField K] (sqrt : K → K) (s : FSM K) :
    setLocalTargetPt sqrt s =
      { s with local_target_pt_ := (getLocalTarget sqrt s).local_target_pt_ } := by
  unfold getLocalTarget setLocalTargetVel setLocalTargetPt
  split_ifs <;> rfl

theorem getLocalTarget_vel {K : Type} [LinearOrderedField K] (sqrt : K → K) (s : FSM K) :
    (getLocalTarget sqrt s).local_target_vel_ =
      if (s.end_pt_.sub (getLocalTarget sqrt s).local_target_pt_).norm sqrt < brakeDist s then
        Vec3.smul (((s.end_pt_.sub s.init_pt_).normalized sqrt).smul s.max_vel_)
          ((s.end_pt_.sub (getLocalTarget sqrt s).local_target_pt_).norm sqrt / brakeDist s)
      else ((s.end_pt_.sub s.init_pt_).normalized sqrt).smul s.max_vel_ := by
  conv_lhs => unfold getLocalTarget
  rw [setLocalTargetPt_eq]
  unfold setLocalTargetVel
  simp only [brakeDist]
  split_ifs <;> rfl

theorem Vec3.squaredNorm_normalized {K : Type} [LinearOrderedField K] {sqrt : K → K}
    (hsq : IsSqrt sqrt) (v : Vec3 K) (hv : 0 < v.squaredNorm) :
    (v.normalized sqrt).squaredNorm = 1 := by
  have hr := hsq.mul_self hv.le
  have hr0 : sqrt v.squaredNorm ≠ 0 := by
    intro h0
    rw [h0, mul_zero] at hr
    exact absurd hr.symm (ne_of_gt hv)
  unfold Vec3.normalized
  rw [if_pos hv]
  have hq : v.x * v.x + v.y * v.y + v.z * v.z = v.squaredNorm := rfl
  show v.x / sqrt v.squaredNorm * (v.x / sqrt v.squaredNorm) +
      v.y / sqrt v.squaredNorm * (v.y / sqrt v.squaredNorm) +
      v.z / sqrt v.squaredNorm * (v.z / sqrt v.squaredNorm) = 1
  field_simp
  rw [hr]
  exact hq

theorem Vec3.squaredNorm_smul {K : Type} [LinearOrderedField K] (v : Vec3 K) (k : K) :
    (v.smul k).squaredNorm = k * k * v.squaredNorm := by
  unfold Vec3.squaredNorm Vec3.smul
  simp only
  ring

theorem Vec3.norm_smul_unit {K : Type} [LinearOrderedField K] {sqrt : K → K}
    (hsq : IsSqrt sqrt) (u : Vec3 K) (hu : u.squaredNorm = 1) {k : K} (hk : 0 ≤ k) :
    (u.smul k).norm sqrt = k := by
  unfold Vec3.norm
  rw [Vec3.squaredNorm_smul, hu, mul_one, hsq.sqrt_mul_self_abs, abs_of_nonneg hk]

/-- Claim C6. When the goal differs from the reference point and `max_vel_`,
`max_acc_` are positive, the velocity set by `getLocalTarget` is
`u * (v_max * min 1 (d / d_brake))` where `u` is the unit vector from the
reference point to the goal (its length is 1), `d` the distance from the local
target to the goal and `d_brake = v_max * v_max / (2 * a_max)`. Its length is
`v_max * min 1 (d / d_brake)`: it is `v_max` when `d ≥ d_brake`, it is
`(v_max / d_brake) * d` when `d < d_brake` (linear in `d`, zero at `d = 0`),
and it never exceeds `v_max`. -/
theorem getLocalTarget_velocity {K : Type} [LinearOrderedField K] (sqrt : K → K)
    (hsq : IsSqrt sqrt) (s : FSM K) (hne : s.end_pt_ ≠ s.init_pt_)
    (hv : 0 < s.max_vel_) (ha : 0 < s.max_acc_) :
    (getLocalTarget sqrt s).local_target_vel_ =
        ((s.end_pt_.sub s.init_pt_).normalized sqrt).smul
          (s.max_vel_ * min 1
            ((s.end_pt_.sub (getLocalTarget sqrt s).local_target_pt_).norm sqrt / brakeDist s)) ∧
      brakeDist s = s.max_vel_ * s.max_vel_ / (2 * s.max_acc_) ∧
      ((s.end_pt_.sub s.init_pt_).normalized sqrt).norm sqrt = 1 ∧
      (getLocalTarget sqrt s).local_target_vel_.norm sqrt =
        s.max_vel_ * min 1
          ((s.end_pt_.sub (getLocalTarget sqrt s).local_target_pt_).norm sqrt / brakeDist s) ∧
      (brakeDist s ≤ (s.end_pt_.sub (getLocalTarget sqrt s).local_target_pt_).norm sqrt →
        (getLocalTarget sqrt s).local_target_vel_.norm sqrt = s.max_vel_) ∧
      ((s.end_pt_.sub (getLocalTarget sqrt s).local_target_pt_).norm sqrt < brakeDist s →
        (getLocalTarget sqrt s).local_target_vel_.norm sqrt =
          s.max_vel_ / brakeDist s *
            (s.end_pt_.sub (getLocalTarget sqrt s).local_target_pt_).norm sqrt) ∧
      (getLocalTarget sqrt s).local_target_vel_.norm sqrt ≤ s.max_vel_ := by
  have hb := brakeDist_pos s hv ha
  have hd := Vec3.norm_nonneg hsq (s.end_pt_.sub (getLocalTarget sqrt s).local_target_pt_)
  have hu := Vec3.squaredNorm_normalized hsq (s.end_pt_.sub s.init_pt_)
    (Vec3.squaredNorm_pos_of_ne hne)
  have hmin0 : 0 ≤ min 1
      ((s.end_pt_.sub (getLocalTarget sqrt s).local_target_pt_).norm sqrt / brakeDist s) :=
    le_min zero_le_one (div_nonneg hd hb.le)
  have hvel : (getLocalTarget sqrt s).local_target_vel_ =
      ((s.end_pt_.sub s.init_pt_).normalized sqrt).smul
        (s.max_vel_ * min 1
          ((s.end_pt_.sub (getLocalTarget sqrt s).local_target_pt_).norm sqrt / brakeDist s)) := by
    rw [getLocalTarget_vel]
    split_ifs with hlt
    · rw [min_eq_right ((div_lt_one hb).2 hlt).le]
      simp [Vec3.smul, mul_assoc]
    · rw [min_eq_left ((one_le_div hb).2 (not_lt.1 hlt)), mul_one]
  have hnorm : (getLocalTarget sqrt s).local_target_vel_.norm sqrt =
      s.max_vel_ * min 1
        ((s.end_pt_.sub (getLocalTarget sqrt s).local_target_pt_).norm sqrt / brakeDist s) := by
    rw [hvel]
    exact Vec3.norm_smul_unit hsq _ hu (mul_nonneg hv.le hmin0)
  refine ⟨hvel, rfl, ?_, hnorm, ?_, ?_, ?_⟩
  · unfold Vec3.norm
    rw [hu]
    exact hsq.eq_of_mul_self zero_le_one (one_mul 1)
  · intro hge
    rw [hnorm, min_eq_left ((one_le_div hb).2 hge), mul_one]
  · intro hlt
    rw [hnorm, min_eq_right ((div_lt_one hb).2 hlt).le]
    ring
  · rw [hnorm]
    calc s.max_vel_ * min 1
          ((s.end_pt_.sub (getLocalTarget sqrt s).local_target_pt_).norm sqrt / brakeDist s)
        ≤ s.max_vel_ * 1 := mul_le_mul_of_nonneg_left (min_le_left _ _) hv.le
      _ = s.max_vel_ := mul_one _

/-- Instance of `getLocalTarget_velocity`: reference point and start at the
origin, goal `(10,0,0)`, horizon 5, `max_vel_ = max_acc_ = 1`. -/
theorem getLocalTarget_velocity_witness :
    (geomState ℝ ⟨0, 0, 0⟩ ⟨10, 0, 0⟩ ⟨0, 0, 0⟩ 5).end_pt_ ≠
        (geomState ℝ ⟨0, 0, 0⟩ ⟨10, 0, 0⟩ ⟨0, 0, 0⟩ 5).init_pt_ ∧
      0 < (geomState ℝ ⟨0, 0, 0⟩ ⟨10, 0, 0⟩ ⟨0, 0, 0⟩ 5).max_vel_ ∧
      0 < (geomState ℝ ⟨0, 0, 0⟩ ⟨10, 0, 0⟩ ⟨0, 0, 0⟩ 5).max_acc_ ∧
      (getLocalTarget Real.sqrt
        (geomState ℝ ⟨0, 0, 0⟩ ⟨10, 0, 0⟩ ⟨0, 0, 0⟩ 5)).local_target_vel_.norm Real.sqrt ≤
        (geomState ℝ ⟨0, 0, 0⟩ ⟨10, 0, 0⟩ ⟨0, 0, 0⟩ 5).max_vel_ := by
  have hne : (geomState ℝ ⟨0, 0, 0⟩ ⟨10, 0, 0⟩ ⟨0, 0, 0⟩ 5).end_pt_ ≠
      (geomState ℝ ⟨0, 0, 0⟩ ⟨10, 0, 0⟩ ⟨0, 0, 0⟩ 5).init_pt_ := by
    norm_num [geomState]
  have hv : 0 < (geomState ℝ ⟨0, 0, 0⟩ ⟨10, 0, 0⟩ ⟨0, 0, 0⟩ 5).max_vel_ := by
    norm_num [geomState]
  have ha : 0 < (geomState ℝ ⟨0, 0, 0⟩ ⟨10, 0, 0⟩ ⟨0, 0, 0⟩ 5).max_acc_ := by
    norm_num [geomState]
  exact ⟨hne, hv, ha, (getLocalTarget_velocity Real.sqrt isSqrt_real
    (geomState ℝ ⟨0, 0, 0⟩ ⟨10, 0, 0⟩ ⟨0, 0, 0⟩ 5) hne hv ha).2.2.2.2.2.2⟩

/-! ### The safety monitor -/

theorem planFromCurrentTraj_exec_state {K : Type} [LinearOrderedField K]
    (sqrt : K → K) (o : Oracle K) (s : FSM K) :
    (planFromCurrentTraj sqrt o s).2.exec_state_ = s.exec_state_ := by
  unfold planFromCurrentTraj
  simp only []
  split_ifs <;> simp only [callReboundReplan_snd]

/-- The `k`-th value of the loop variable. -/
theorem sampleTimes_getElem? {K : Type} [LinearOrderedField K] [FloorRing K]
    (t_cur duration : K) (k : Nat) :
    (sampleTimes t_cur duration)[k]? =
      if t_cur + (k : K) * time_step < duration then some (t_cur + (k : K) * time_step)
      else none := by
  have hiff : k < sampleCount t_cur duration ↔ t_cur + (k : K) * time_step < duration := by
    unfold sampleCount time_step
    rw [Nat.lt_ceil, lt_div_iff₀ (by norm_num)]
    constructor <;> intro h <;> linarith
  unfold sampleTimes
  rw [List.getElem?_map]
  split_ifs with h
  · rw [List.getElem?_range (hiff.2 h)]
    rfl
  · rw [List.getElem?_eq_none (by simpa using not_lt.1 (fun hlt => h (hiff.1 hlt)))]
    rfl

/-- The state chosen by `checkCollisionCallback` at an occupied sample with
margin `Δ`, from the result `r` of `planFromCurrentTraj`. -/
theorem scanTrajectory_cons_occupied {K : Type} [LinearOrderedField K]
    (sqrt : K → K) (o : Oracle K) (t_cur t : K) (ts : List K) (s : FSM K)
    (hocc : o.getInflateOccupancy (s.local_data_.position_traj_ t) = true) :
    scanTrajectory sqrt o t_cur (t :: ts) s =
      changeFSMExecState
        (if (o.reboundReplan 0).success || (o.reboundReplan 1).success ||
            (o.reboundReplan 2).success then EXEC_TRAJ
          else if t - t_cur < 4 / 5 then EMERGENCY_STOP
          else REPLAN_TRAJ)
        (planFromCurrentTraj sqrt o
          { s with occ_queries_ := s.occ_queries_ ++ [s.local_data_.position_traj_ t] }).2 := by
  unfold scanTrajectory
  simp only [hocc, if_true, planFromCurrentTraj_fst]
  split_ifs <;> rfl

/-- The loop stops at the first occupied sample: the result is the state
chosen there, for some extended log `Q` of occupancy queries. -/
theorem scanTrajectory_first_occupied_eq {K : Type} [LinearOrderedField K]
    (sqrt : K → K) (o : Oracle K) (t_cur : K) (traj : LocalTrajData K) :
    ∀ (ts : List K) (k : Nat) (t : K) (s : FSM K), s.local_data_ = traj →
      ts[k]? = some t →
      o.getInflateOccupancy (traj.position_traj_ t) = true →
      (∀ (j : Nat) (x : K), j < k → ts[j]? = some x →
        o.getInflateOccupancy (traj.position_traj_ x) = false) →
      ∃ Q : List (Vec3 K), scanTrajectory sqrt o t_cur ts s =
        changeFSMExecState
          (if (o.reboundReplan 0).success || (o.reboundReplan 1).success ||
              (o.reboundReplan 2).success then EXEC_TRAJ
            else if t - t_cur < 4 / 5 then EMERGENCY_STOP
            else REPLAN_TRAJ)
          (planFromCurrentTraj sqrt o { s with occ_queries_ := Q }).2 := by
  intro ts
  induction ts with
  | nil => intro k t s _ hk; simp at hk
  | cons a ts ih =>
    intro k t s hs hk hocc hfirst
    cases k with
    | zero =>
      simp only [List.getElem?_cons_zero, Option.some.injEq] at hk
      subst hk
      exact ⟨_, scanTrajectory_cons_occupied sqrt o t_cur a ts s (by rw [hs]; exact hocc)⟩
    | succ k =>
      simp only [List.getElem?_cons_succ] at hk
      have ha : o.getInflateOccupancy (traj.position_traj_ a) = false :=
        hfirst 0 a (Nat.succ_pos k) (by simp)
      obtain ⟨Q, hQ⟩ := ih k t
        { s with occ_queries_ := s.occ_queries_ ++ [s.local_data_.position_traj_ a] } hs hk hocc
        (fun j x hj hx => hfirst (j + 1) x (Nat.succ_lt_succ hj) (by simpa using hx))
      refine ⟨Q, ?_⟩
      rw [← hQ]
      conv_lhs => unfold scanTrajectory
      simp only [hs, ha]
      rfl

/-- When no sample is occupied the loop only extends the log of occupancy
queries. -/
theorem scanTrajectory_none_occupied {K : Type} [LinearOrderedField K]
    (sqrt : K → K) (o : Oracle K) (t_cur : K) (traj : LocalTrajData K) :
    ∀ (ts : List K) (s : FSM K), s.local_data_ = traj →
      (∀ x ∈ ts, o.getInflateOccupancy (traj.position_traj_ x) = false) →
      scanTrajectory sqrt o t_cur ts s =
        { s with occ_queries_ := s.occ_queries_ ++ ts.map traj.position_traj_ } := by
  intro ts
  induction ts with
  | nil => intro s _ _; simp [scanTrajectory]
  | cons a ts ih =>
    intro s hs hall
    have ha : o.getInflateOccupancy (traj.position_traj_ a) = false :=
      hall a (List.mem_cons_self a ts)
    unfold scanTrajectory
    simp only [hs, ha]
    rw [ih _ rfl (fun x hx => hall x (List.mem_cons_of_mem a hx))]
    simp [hs]

/-- The loop stops at the first occupied sample and leaves the state chosen
by the outcome of `planFromCurrentTraj` and the margin `t - t_cur`. -/
theorem scanTrajectory_first_occupied {K : Type} [LinearOrderedField K]
    (sqrt : K → K) (o : Oracle K) (t_cur : K) (traj : LocalTrajData K)
    (ts : List K) (k : Nat) (t : K) (s : FSM K) (hs : s.local_data_ = traj)
    (hk : ts[k]? = some t)
    (hocc : o.getInflateOccupancy (traj.position_traj_ t) = true)
    (hfirst : ∀ (j : Nat) (x : K), j < k → ts[j]? = some x →
      o.getInflateOccupancy (traj.position_traj_ x) = false) :
    (scanTrajectory sqrt o t_cur ts s).exec_state_ =
      if (o.reboundReplan 0).success || (o.reboundReplan 1).success ||
          (o.reboundReplan 2).success then EXEC_TRAJ
      else if t - t_cur < 4 / 5 then EMERGENCY_STOP
      else REPLAN_TRAJ := by
  obtain ⟨Q, hQ⟩ := scanTrajectory_first_occupied_eq sqrt o t_cur traj ts k t s hs hk hocc hfirst
  rw [hQ, changeFSMExecState_exec_state]

/-- A run of `checkCollisionCallback` outside `WAIT_TARGET` whose first
occupied sample is the `k`-th one. -/
theorem checkCollisionCallback_eq_of_first {K : Type} [LinearOrderedField K] [FloorRing K]
    (sqrt : K → K) (o : Oracle K) (s : FSM K) (k : Nat)
    (hstate : s.exec_state_ ≠ WAIT_TARGET)
    (hk : o.now - s.local_data_.start_time_ + (k : K) * time_step < s.local_data_.duration_)
    (hocc : o.getInflateOccupancy (s.local_data_.position_traj_
      (o.now - s.local_data_.start_time_ + (k : K) * time_step)) = true)
    (hfirst : ∀ j : Nat, j < k → o.getInflateOccupancy (s.local_data_.position_traj_
      (o.now - s.local_data_.start_time_ + (j : K) * time_step)) = false) :
    ∃ Q : List (Vec3 K), checkCollisionCallback sqrt o s =
      changeFSMExecState
        (if (o.reboundReplan 0).success || (o.reboundReplan 1).success ||
            (o.reboundReplan 2).success then EXEC_TRAJ
          else if (k : K) * time_step < 4 / 5 then EMERGENCY_STOP
          else REPLAN_TRAJ)
        (planFromCurrentTraj sqrt o { s with occ_queries_ := Q }).2 := by
  unfold checkCollisionCallback
  rw [if_neg hstate]
  simp only []
  obtain ⟨Q, hQ⟩ := scanTrajectory_first_occupied_eq sqrt o
    (o.now - s.local_data_.start_time_) s.local_data_ _ k
    (o.now - s.local_data_.start_time_ + (k : K) * time_step) s rfl
    (by rw [sampleTimes_getElem?, if_pos hk]) hocc
    (fun j x hj hx => by
      rw [sampleTimes_getElem?] at hx
      split_ifs at hx with hlt
      simp only [Option.some.injEq] at hx
      rw [← hx]
      exact hfirst j hj)
  refine ⟨Q, ?_⟩
  rw [hQ, add_sub_cancel_left]

/-- A run of `checkCollisionCallback` in which no sample is occupied only
extends the log of occupancy queries. -/
theorem checkCollisionCallback_eq_of_clear {K : Type} [LinearOrderedField K] [FloorRing K]
    (sqrt : K → K) (o : Oracle K) (s : FSM K)
    (hclear : ∀ k : Nat,
      o.now - s.local_data_.start_time_ + (k : K) * time_step < s.local_data_.duration_ →
      o.getInflateOccupancy (s.local_data_.position_traj_
        (o.now - s.local_data_.start_time_ + (k : K) * time_step)) = false) :
    ∃ Q : List (Vec3 K), checkCollisionCallback sqrt o s = { s with occ_queries_ := Q } := by
  unfold checkCollisionCallback
  split_ifs with hw
  · exact ⟨s.occ_queries_, rfl⟩
  · simp only []
    refine ⟨_, scanTrajectory_none_occupied sqrt o _ s.local_data_ _ s rfl ?_⟩
    intro x hx
    obtain ⟨k, hk⟩ := List.mem_iff_getElem?.1 hx
    rw [sampleTimes_getElem?] at hk
    split_ifs at hk with hlt
    simp only [Option.some.injEq] at hk
    rw [← hk]
    exact hclear k hlt

/-- Claim C7. In a safety-monitor run outside `WAIT_TARGET` whose first
occupied sample is the `k`-th one, at margin `Δ = k * time_step`: when the
escalation replan succeeds the resulting state is `EXEC_TRAJ`; when it fails
the resulting state is `EMERGENCY_STOP` if `Δ < 0.8` and `REPLAN_TRAJ`
otherwise. In particular a failure at `Δ = 0.5` gives `EMERGENCY_STOP` and a
failure at `Δ = 1` gives `REPLAN_TRAJ`. -/
theorem checkCollisionCallback_first_collision {K : Type} [LinearOrderedField K] [FloorRing K]
    (sqrt : K → K) (o : Oracle K) (s : FSM K) (k : Nat)
    (hstate : s.exec_state_ ≠ WAIT_TARGET)
    (hk : o.now - s.local_data_.start_time_ + (k : K) * time_step < s.local_data_.duration_)
    (hocc : o.getInflateOccupancy (s.local_data_.position_traj_
      (o.now - s.local_data_.start_time_ + (k : K) * time_step)) = true)
    (hfirst : ∀ j : Nat, j < k → o.getInflateOccupancy (s.local_data_.position_traj_
      (o.now - s.local_data_.start_time_ + (j : K) * time_step)) = false) :
    (checkCollisionCallback sqrt o s).exec_state_ =
        (if (planFromCurrentTraj sqrt o s).1 then EXEC_TRAJ
          else if (k : K) * time_step < 4 / 5 then EMERGENCY_STOP
          else REPLAN_TRAJ) ∧
      ((planFromCurrentTraj sqrt o s).1 = false → (k : K) * time_step = 1 / 2 →
        (checkCollisionCallback sqrt o s).exec_state_ = EMERGENCY_STOP) ∧
      ((planFromCurrentTraj sqrt o s).1 = false → (k : K) * time_step = 1 →
        (checkCollisionCallback sqrt o s).exec_state_ = REPLAN_TRAJ) := by
  have hmain : (checkCollisionCallback sqrt o s).exec_state_ =
      (if (planFromCurrentTraj sqrt o s).1 then EXEC_TRAJ
        else if (k : K) * time_step < 4 / 5 then EMERGENCY_STOP
        else REPLAN_TRAJ) := by
    unfold checkCollisionCallback
    rw [if_neg hstate]
    simp only []
    rw [scanTrajectory_first_occupied sqrt o _ s.local_data_ _ k
      (o.now - s.local_data_.start_time_ + (k : K) * time_step) s rfl
      (by rw [sampleTimes_getElem?, if_pos hk]) hocc
      (fun j x hj hx => by
        rw [sampleTimes_getElem?] at hx
        split_ifs at hx with hlt
        simp only [Option.some.injEq] at hx
        rw [← hx]
        exact hfirst j hj),
      planFromCurrentTraj_fst, add_sub_cancel_left]
  refine ⟨hmain, ?_, ?_⟩
  · intro hfail hΔ
    rw [hmain, hfail, hΔ]
    norm_num
  · intro hfail hΔ
    rw [hmain, hfail, hΔ]
    norm_num

/-- Instance of `checkCollisionCallback_first_collision`: in `EXEC_TRAJ`, at
time 0 on a trajectory of duration 2, the first occupied sample is number 50
(margin 0.5) and every optimizer call fails; the run ends in
`EMERGENCY_STOP`. -/
theorem checkCollisionCallback_first_collision_witness :
    (flyingState ℝ).exec_state_ ≠ WAIT_TARGET ∧
      ((50 : Nat) : ℝ) * time_step = 1 / 2 ∧
      (planFromCurrentTraj Real.sqrt (wallOracle ℝ (1 / 2)) (flyingState ℝ)).1 = false ∧
      (checkCollisionCallback Real.sqrt (wallOracle ℝ (1 / 2)) (flyingState ℝ)).exec_state_ =
        EMERGENCY_STOP := by
  have hstate : (flyingState ℝ).exec_state_ ≠ WAIT_TARGET := by
    simp [flyingState]
  have hΔ : ((50 : Nat) : ℝ) * time_step = 1 / 2 := by
    norm_num [time_step]
  have hfail : (planFromCurrentTraj Real.sqrt (wallOracle ℝ (1 / 2)) (flyingState ℝ)).1
      = false := by
    rw [planFromCurrentTraj_fst]
    simp [wallOracle, mkOracle]
  exact ⟨hstate, hΔ, hfail,
    (checkCollisionCallback_first_collision Real.sqrt (wallOracle ℝ (1 / 2)) (flyingState ℝ) 50
      hstate
      (by norm_num [wallOracle, mkOracle, flyingState, rampTraj, zeroTraj, time_step])
      (by norm_num [wallOracle, mkOracle, flyingState, rampTraj, zeroTraj, time_step])
      (by
        intro j hj
        have hj' : (j : ℝ) < 50 := by exact_mod_cast hj
        simp only [wallOracle, mkOracle, flyingState, rampTraj, zeroTraj, time_step,
          decide_eq_false_iff_not, not_le]
        linarith)).2.1 hfail hΔ⟩

/-! ### Optimizer calls during an emergency stop -/

theorem countFsmNum_eq {K : Type} (s : FSM K) :
    countFsmNum s =
      { s with fsm_num := if s.fsm_num + 1 = 100 then 0 else s.fsm_num + 1 } := by
  unfold countFsmNum
  split_ifs <;> rfl

theorem changeFSMExecState_eq {K : Type} (n : FSM_EXEC_STATE) (s : FSM K) :
    changeFSMExecState n s =
      { s with
        exec_state_ := n
        continously_called_times_ :=
          if n = s.exec_state_ then s.continously_called_times_ + 1 else 1 } := by
  unfold changeFSMExecState
  split_ifs <;> rfl

/-- The core tick in `EMERGENCY_STOP`, written out. -/
theorem execFSMCallback_emergency {K : Type} [LinearOrderedField K]
    (sqrt : K → K) (o : Oracle K) (s : FSM K) (hs : s.exec_state_ = EMERGENCY_STOP) :
    execFSMCallback sqrt o s =
      publishDataDisp
        { (if s.flag_escape_emergency_ then
            (callEmergencyStop o s.odom_pos_ (countFsmNum s)).2
          else if s.odom_vel_.norm sqrt < 1 / 10 then
            changeFSMExecState GEN_NEW_TRAJ (countFsmNum s)
          else countFsmNum s) with flag_escape_emergency_ := false } := by
  have h := countFsmNum_exec_state s
  rw [hs] at h
  unfold execFSMCallback
  simp only []
  split <;> rename_i heq <;> rw [h] at heq <;> cases heq
  simp only [countFsmNum_eq]

theorem execFSMCallback_emergency_calls {K : Type} [LinearOrderedField K]
    (sqrt : K → K) (o : Oracle K) (s : FSM K) (hs : s.exec_state_ = EMERGENCY_STOP) :
    (execFSMCallback sqrt o s).replan_calls_ = s.replan_calls_ := by
  rw [execFSMCallback_emergency sqrt o s hs]
  unfold publishDataDisp callEmergencyStop
  simp only [countFsmNum_eq, changeFSMExecState_eq]
  split_ifs <;> rfl

/-- Claim C9, as amended. In `EMERGENCY_STOP` the core tick makes no optimizer
call. The safety-monitor tick makes none when no sample of the committed
trajectory ahead is occupied; when its first occupied sample is the `k`-th
one it runs the escalation, which makes between one and three calls. -/
theorem emergency_stop_replan_calls {K : Type} [LinearOrderedField K] [FloorRing K]
    (sqrt : K → K) (o : Oracle K) (s : FSM K) (hs : s.exec_state_ = EMERGENCY_STOP) :
    (execFSMCallback sqrt o s).replan_calls_ = s.replan_calls_ ∧
      ((∀ k : Nat,
          o.now - s.local_data_.start_time_ + (k : K) * time_step < s.local_data_.duration_ →
          o.getInflateOccupancy (s.local_data_.position_traj_
            (o.now - s.local_data_.start_time_ + (k : K) * time_step)) = false) →
        (checkCollisionCallback sqrt o s).replan_calls_ = s.replan_calls_) ∧
      (∀ k : Nat,
        o.now - s.local_data_.start_time_ + (k : K) * time_step < s.local_data_.duration_ →
        o.getInflateOccupancy (s.local_data_.position_traj_
          (o.now - s.local_data_.start_time_ + (k : K) * time_step)) = true →
        (∀ j : Nat, j < k → o.getInflateOccupancy (s.local_data_.position_traj_
          (o.now - s.local_data_.start_time_ + (j : K) * time_step)) = false) →
        (checkCollisionCallback sqrt o s).replan_calls_ =
            s.replan_calls_ ++ (escalation s.have_new_target_).take (attempts o) ∧
          1 ≤ attempts o ∧ attempts o ≤ 3) := by
  refine ⟨execFSMCallback_emergency_calls sqrt o s hs, ?_, ?_⟩
  · intro hclear
    obtain ⟨Q, hQ⟩ := checkCollisionCallback_eq_of_clear sqrt o s hclear
    rw [hQ]
  · intro k hk hocc hfirst
    obtain ⟨Q, hQ⟩ := checkCollisionCallback_eq_of_first sqrt o s k
      (by rw [hs]; decide) hk hocc hfirst
    refine ⟨?_, ?_, ?_⟩
    · rw [hQ, changeFSMExecState_eq]
      exact planFromCurrentTraj_calls sqrt o _
    · unfold attempts; split_ifs <;> omega
    · unfold attempts; split_ifs <;> omega

/-- Instance of `emergency_stop_replan_calls`: the core tick of
`stoppedState` makes no optimizer call. -/
theorem emergency_stop_replan_calls_witness :
    (stoppedState ℝ).exec_state_ = EMERGENCY_STOP ∧
      (execFSMCallback Real.sqrt (wallOracle ℝ 0) (stoppedState ℝ)).replan_calls_ =
        (stoppedState ℝ).replan_calls_ :=
  ⟨rfl, (emergency_stop_replan_calls Real.sqrt (wallOracle ℝ 0) (stoppedState ℝ) rfl).1⟩

/-- Claim C9 fails as stated. In `EMERGENCY_STOP`, with the first sample of
the committed trajectory occupied and an optimizer that fails every time, one
run of `checkCollisionCallback` makes three calls of `reboundReplan`. -/
theorem checkCollisionCallback_replans_in_emergency :
    (stoppedState ℝ).exec_state_ = EMERGENCY_STOP ∧
      (stoppedState ℝ).replan_calls_ = [] ∧
      (checkCollisionCallback Real.sqrt (wallOracle ℝ 0) (stoppedState ℝ)).replan_calls_ =
        [⟨false, false⟩, ⟨true, false⟩, ⟨true, true⟩] ∧
      (checkCollisionCallback Real.sqrt (wallOracle ℝ 0) (stoppedState ℝ)).replan_calls_.length
        ≠ 0 := by
  have hcalls : (checkCollisionCallback Real.sqrt (wallOracle ℝ 0) (stoppedState ℝ)).replan_calls_
      = [⟨false, false⟩, ⟨true, false⟩, ⟨true, true⟩] := by
    obtain ⟨Q, hQ⟩ := checkCollisionCallback_eq_of_first Real.sqrt (wallOracle ℝ 0)
      (stoppedState ℝ) 0 (by simp [stoppedState])
      (by norm_num [wallOracle, mkOracle, stoppedState, flyingState, rampTraj, zeroTraj,
        time_step])
      (by norm_num [wallOracle, mkOracle, stoppedState, flyingState, rampTraj, zeroTraj,
        time_step])
      (by intro j hj; omega)
    rw [hQ, changeFSMExecState_eq]
    show (planFromCurrentTraj Real.sqrt (wallOracle ℝ 0) _).2.replan_calls_ = _
    rw [planFromCurrentTraj_calls]
    simp [attempts, escalation, wallOracle, mkOracle, stoppedState, flyingState, geomState,
      zeroState]
  refine ⟨rfl, rfl, hcalls, ?_⟩
  rw [hcalls]
  simp

/-! ### Randomization in `GEN_NEW_TRAJ` -/

/-- The core tick in `GEN_NEW_TRAJ`, written out. -/
theorem execFSMCallback_gen {K : Type} [LinearOrderedField K]
    (sqrt : K → K) (o : Oracle K) (s : FSM K) (hs : s.exec_state_ = GEN_NEW_TRAJ) :
    execFSMCallback sqrt o s =
      if (o.reboundReplan 0).success then
        publishDataDisp
          { changeFSMExecState EXEC_TRAJ
              (callReboundReplan sqrt (o.reboundReplan 0) true
                (decide (s.continously_called_times_ ≠ 1))
                { countFsmNum s with
                  start_pt_ := s.odom_pos_
                  start_vel_ := s.odom_vel_
                  start_acc_ := Vec3.zero }).2 with flag_escape_emergency_ := true }
      else
        publishDataDisp
          (changeFSMExecState GEN_NEW_TRAJ
            (callReboundReplan sqrt (o.reboundReplan 0) true
              (decide (s.continously_called_times_ ≠ 1))
              { countFsmNum s with
                start_pt_ := s.odom_pos_
                start_vel_ := s.odom_vel_
                start_acc_ := Vec3.zero }).2) := by
  have h := countFsmNum_exec_state s
  rw [hs] at h
  have hflag : ∀ c : Int, (if c = 1 then false else true) = decide (c ≠ 1) := by
    intro c
    by_cases hc : c = 1 <;> simp [hc]
  unfold execFSMCallback
  simp only []
  split <;> rename_i heq <;> rw [h] at heq <;> cases heq
  simp only [callReboundReplan_fst, timesOfConsecutiveStateCalls, hflag, countFsmNum_eq]

theorem execFSMCallback_gen_calls {K : Type} [LinearOrderedField K]
    (sqrt : K → K) (o : Oracle K) (s : FSM K) (hs : s.exec_state_ = GEN_NEW_TRAJ) :
    (execFSMCallback sqrt o s).replan_calls_ =
      s.replan_calls_ ++ [⟨true, decide (s.continously_called_times_ ≠ 1)⟩] := by
  rw [execFSMCallback_gen sqrt o s hs]
  unfold publishDataDisp
  simp only [countFsmNum_eq, changeFSMExecState_eq, callReboundReplan_snd]
  split_ifs <;> simp

theorem execFSMCallback_gen_failed {K : Type} [LinearOrderedField K]
    (sqrt : K → K) (o : Oracle K) (s : FSM K) (hs : s.exec_state_ = GEN_NEW_TRAJ)
    (hfail : (o.reboundReplan 0).success = false) :
    (execFSMCallback sqrt o s).exec_state_ = GEN_NEW_TRAJ ∧
      (execFSMCallback sqrt o s).continously_called_times_ =
        s.continously_called_times_ + 1 := by
  rw [execFSMCallback_gen sqrt o s hs, hfail]
  unfold publishDataDisp
  simp [countFsmNum_eq, changeFSMExecState_eq, callReboundReplan_snd, hs]

theorem run_nil {K : Type} [LinearOrderedField K] [FloorRing K] (sqrt : K → K) (s : FSM K) :
    run sqrt s [] = s := rfl

theorem run_cons {K : Type} [LinearOrderedField K] [FloorRing K] (sqrt : K → K) (s : FSM K)
    (e : Event K) (es : List (Event K)) :
    run sqrt s (e :: es) = run sqrt (step sqrt s e) es := rfl

/-- Retries in `GEN_NEW_TRAJ`: from a counter value of at least 2, core ticks
whose optimizer call fails, followed by one more core tick, all call the
optimizer with randomization. -/
theorem run_gen_retries {K : Type} [LinearOrderedField K] [FloorRing K] (sqrt : K → K) :
    ∀ (os : List (Oracle K)) (o : Oracle K) (s : FSM K), s.exec_state_ = GEN_NEW_TRAJ →
      2 ≤ s.continously_called_times_ →
      (∀ x ∈ os, (x.reboundReplan 0).success = false) →
      (run sqrt s ((os ++ [o]).map Event.execFSM)).replan_calls_ =
        s.replan_calls_ ++ List.replicate (os.length + 1) ⟨true, true⟩ := by
  intro os
  induction os with
  | nil =>
    intro o s hs hc _
    have hne : s.continously_called_times_ ≠ 1 := by omega
    simp [run_cons, run_nil, step, execFSMCallback_gen_calls sqrt o s hs, hne]
  | cons x xs ih =>
    intro o s hs hc hall
    have hx : (x.reboundReplan 0).success = false := hall x (List.mem_cons_self x xs)
    have hne : s.continously_called_times_ ≠ 1 := by omega
    obtain ⟨h1, h2⟩ := execFSMCallback_gen_failed sqrt x s hs hx
    have := ih o (execFSMCallback sqrt x s) h1 (by rw [h2]; omega)
      (fun y hy => hall y (List.mem_cons_of_mem x hy))
    simp only [List.cons_append, List.map_cons, run_cons, step]
    rw [this, execFSMCallback_gen_calls sqrt x s hs]
    simp [hne, List.replicate_succ]

/-- Claim C10. A core tick in `GEN_NEW_TRAJ` makes exactly one optimizer call,
with forced re-initialization; the call is not randomized when the counter is
1 and is randomized when the counter is 2 or more. Hence, after
`GEN_NEW_TRAJ` has been entered from a different state, in a run of core ticks
of which all but possibly the last have a failing optimizer call, the first
call is not randomized and every later one is. -/
theorem gen_new_traj_randomization {K : Type} [LinearOrderedField K] [FloorRing K]
    (sqrt : K → K) (o : Oracle K) (s : FSM K) (hs : s.exec_state_ = GEN_NEW_TRAJ) :
    (execFSMCallback sqrt o s).replan_calls_ =
        s.replan_calls_ ++ [⟨true, decide (s.continously_called_times_ ≠ 1)⟩] ∧
      (s.continously_called_times_ = 1 →
        (execFSMCallback sqrt o s).replan_calls_ = s.replan_calls_ ++ [⟨true, false⟩]) ∧
      (2 ≤ s.continously_called_times_ →
        (execFSMCallback sqrt o s).replan_calls_ = s.replan_calls_ ++ [⟨true, true⟩]) ∧
      (∀ (s0 : FSM K) (os : List (Oracle K)) (o' : Oracle K),
        s0.exec_state_ ≠ GEN_NEW_TRAJ →
        (∀ x ∈ os, (x.reboundReplan 0).success = false) →
        (run sqrt (changeFSMExecState GEN_NEW_TRAJ s0)
            ((os ++ [o']).map Event.execFSM)).replan_calls_ =
          s0.replan_calls_ ++ ⟨true, false⟩ :: List.replicate os.length ⟨true, true⟩) := by
  have hcall := execFSMCallback_gen_calls sqrt o s hs
  refine ⟨hcall, ?_, ?_, ?_⟩
  · intro h1
    rw [hcall, h1]
    simp
  · intro h2
    have hne : s.continously_called_times_ ≠ 1 := by omega
    rw [hcall]
    simp [hne]
  · intro s0 os o' hne hall
    have he : (changeFSMExecState GEN_NEW_TRAJ s0).exec_state_ = GEN_NEW_TRAJ :=
      changeFSMExecState_exec_state _ _
    have hc : (changeFSMExecState GEN_NEW_TRAJ s0).continously_called_times_ = 1 := by
      rw [changeFSMExecState_counter, if_neg (fun h => hne h.symm)]
    have hr : (changeFSMExecState GEN_NEW_TRAJ s0).replan_calls_ = s0.replan_calls_ := by
      rw [changeFSMExecState_eq]
    cases os with
    | nil =>
      simp [run_cons, run_nil, step,
        execFSMCallback_gen_calls sqrt o' _ he, hc, hr]
    | cons x xs =>
      have hx : (x.reboundReplan 0).success = false := hall x (List.mem_cons_self x xs)
      obtain ⟨h1, h2⟩ := execFSMCallback_gen_failed sqrt x _ he hx
      have := run_gen_retries sqrt xs o' (execFSMCallback sqrt x (changeFSMExecState GEN_NEW_TRAJ s0))
        h1 (by rw [h2, hc]; norm_num) (fun y hy => hall y (List.mem_cons_of_mem x hy))
      simp only [List.cons_append, List.map_cons, run_cons, step]
      rw [this, execFSMCallback_gen_calls sqrt x _ he, hc, hr]
      simp

/-- Instance of `gen_new_traj_randomization`: a state just moved to
`GEN_NEW_TRAJ` from `INIT` has counter 1, and its core tick makes the single
call (forced re-initialization, no randomization). -/
theorem gen_new_traj_randomization_witness :
    (changeFSMExecState GEN_NEW_TRAJ (zeroState ℝ)).exec_state_ = GEN_NEW_TRAJ ∧
      (execFSMCallback Real.sqrt (wallOracle ℝ 0)
        (changeFSMExecState GEN_NEW_TRAJ (zeroState ℝ))).replan_calls_ = [⟨true, false⟩] := by
  refine ⟨rfl, ?_⟩
  have h := (gen_new_traj_randomization Real.sqrt (wallOracle ℝ 0)
    (changeFSMExecState GEN_NEW_TRAJ (zeroState ℝ)) rfl).2.1
  simpa [changeFSMExecState_eq, zeroState] using h

/-! ### Emergency-stop episodes -/

/-- The core tick in `INIT`, written out. -/
theorem execFSMCallback_init {K : Type} [LinearOrderedField K]
    (sqrt : K → K) (o : Oracle K) (s : FSM K) (hs : s.exec_state_ = INIT) :
    execFSMCallback sqrt o s =
      if s.have_odom_ = true ∧ s.trigger_ = true then
        publishDataDisp (changeFSMExecState WAIT_TARGET (countFsmNum s))
      else countFsmNum s := by
  have h := countFsmNum_exec_state s
  rw [hs] at h
  unfold execFSMCallback
  simp only []
  split <;> rename_i heq <;> rw [h] at heq <;> cases heq
  simp only [countFsmNum_eq]
  cases s.have_odom_ <;> cases s.trigger_ <;> simp

/-- The core tick in `WAIT_TARGET`, written out. -/
theorem execFSMCallback_wait {K : Type} [LinearOrderedField K]
    (sqrt : K → K) (o : Oracle K) (s : FSM K) (hs : s.exec_state_ = WAIT_TARGET) :
    execFSMCallback sqrt o s =
      if s.have_target_ = true then
        publishDataDisp (changeFSMExecState GEN_NEW_TRAJ (countFsmNum s))
      else countFsmNum s := by
  have h := countFsmNum_exec_state s
  rw [hs] at h
  unfold execFSMCallback
  simp only []
  split <;> rename_i heq <;> rw [h] at heq <;> cases heq
  simp only [countFsmNum_eq]
  cases s.have_target_ <;> simp

/-- The members that `planFromCurrentTraj` leaves as they are. -/
theorem planFromCurrentTraj_eq {K : Type} [LinearOrderedField K]
    (sqrt : K → K) (o : Oracle K) (s : FSM K) :
    (planFromCurrentTraj sqrt o s).2 =
      { s with
        start_pt_ := (planFromCurrentTraj sqrt o s).2.start_pt_
        start_vel_ := (planFromCurrentTraj sqrt o s).2.start_vel_
        start_acc_ := (planFromCurrentTraj sqrt o s).2.start_acc_
        local_target_pt_ := (planFromCurrentTraj sqrt o s).2.local_target_pt_
        local_target_vel_ := (planFromCurrentTraj sqrt o s).2.local_target_vel_
        replan_calls_ := (planFromCurrentTraj sqrt o s).2.replan_calls_
        new_target_reads_ := (planFromCurrentTraj sqrt o s).2.new_target_reads_
        local_data_ := (o.reboundReplan (attempts o - 1)).local_data
        have_new_target_ := false
        bspline_pubs_ := (planFromCurrentTraj sqrt o s).2.bspline_pubs_ } := by
  unfold planFromCurrentTraj attempts
  simp only [callReboundReplan_fst]
  cases (o.reboundReplan 0).success <;> cases (o.reboundReplan 1).success <;>
    cases (o.reboundReplan 2).success <;> simp [callReboundReplan_snd]

/-- Events 1 and 2 of `stoplessTrace`: odometry, then an accepted goal. -/
theorem tracked_after_trigger {K : Type} [LinearOrderedField K] (raw : FSM K) :
    Tracked (waypointCallback ⟨10, 0, 0⟩ true
        (odometryCallback Vec3.zero Vec3.zero (1, 0, 0, 0) (init (demoParams K) raw)))
      INIT raw.flag_escape_emergency_ (zeroTraj K) [] := by
  unfold Tracked waypointCallback odometryCallback init
  norm_num [demoParams, MANUAL_TARGET]
  simp

/-- A core tick in `INIT` with odometry and trigger moves to `WAIT_TARGET`. -/
theorem tracked_core_init {K : Type} [LinearOrderedField K] (sqrt : K → K) (o : Oracle K)
    (s : FSM K) (f : Bool) (traj : LocalTrajData K) (st : List (Vec3 K))
    (h : Tracked s INIT f traj st) :
    Tracked (execFSMCallback sqrt o s) WAIT_TARGET f traj st := by
  obtain ⟨h1, h2, h3, h4, h5, h6, h7, h8, h9⟩ := h
  rw [execFSMCallback_init sqrt o s h1, if_pos ⟨h7, h8⟩]
  unfold Tracked publishDataDisp
  simp [changeFSMExecState_eq, countFsmNum_eq, h2, h3, h4, h5, h6, h7, h8, h9]

/-- A core tick in `WAIT_TARGET` with a goal moves to `GEN_NEW_TRAJ`. -/
theorem tracked_core_wait {K : Type} [LinearOrderedField K] (sqrt : K → K) (o : Oracle K)
    (s : FSM K) (f : Bool) (traj : LocalTrajData K) (st : List (Vec3 K))
    (h : Tracked s WAIT_TARGET f traj st) :
    Tracked (execFSMCallback sqrt o s) GEN_NEW_TRAJ f traj st := by
  obtain ⟨h1, h2, h3, h4, h5, h6, h7, h8, h9⟩ := h
  rw [execFSMCallback_wait sqrt o s h1, if_pos h9]
  unfold Tracked publishDataDisp
  simp [changeFSMExecState_eq, countFsmNum_eq, h2, h3, h4, h5, h6, h7, h8, h9]

/-- A core tick in `GEN_NEW_TRAJ` whose optimizer call succeeds moves to
`EXEC_TRAJ` and sets `flag_escape_emergency_`. -/
theorem tracked_core_gen_success {K : Type} [LinearOrderedField K] (sqrt : K → K)
    (o : Oracle K) (s : FSM K) (f : Bool) (traj : LocalTrajData K) (st : List (Vec3 K))
    (h : Tracked s GEN_NEW_TRAJ f traj st) (hok : (o.reboundReplan 0).success = true) :
    Tracked (execFSMCallback sqrt o s) EXEC_TRAJ true (o.reboundReplan 0).local_data st := by
  obtain ⟨h1, h2, h3, h4, h5, h6, h7, h8, h9⟩ := h
  rw [execFSMCallback_gen sqrt o s h1, if_pos hok]
  unfold Tracked publishDataDisp
  simp [changeFSMExecState_eq, countFsmNum_eq, callReboundReplan_snd, h2, h3, h4, h5, h6, h7,
    h8, h9]

/-- A core tick in `EMERGENCY_STOP` with `flag_escape_emergency_` set issues
the stop and clears the flag. -/
theorem tracked_core_emergency_armed {K : Type} [LinearOrderedField K] (sqrt : K → K)
    (o : Oracle K) (s : FSM K) (traj : LocalTrajData K) (st : List (Vec3 K))
    (h : Tracked s EMERGENCY_STOP true traj st) :
    Tracked (execFSMCallback sqrt o s) EMERGENCY_STOP false o.EmergencyStop
      (st ++ [Vec3.zero]) := by
  obtain ⟨h1, h2, h3, h4, h5, h6, h7, h8, h9⟩ := h
  rw [execFSMCallback_emergency sqrt o s h1, h2, if_pos rfl]
  unfold Tracked publishDataDisp callEmergencyStop
  simp [countFsmNum_eq, h1, h3, h4, h5, h6, h7, h8, h9]

/-- A core tick in `EMERGENCY_STOP` with `flag_escape_emergency_` clear and
the vehicle at rest issues no stop and moves to `GEN_NEW_TRAJ`. -/
theorem tracked_core_emergency_disarmed {K : Type} [LinearOrderedField K] {sqrt : K → K}
    (hsq : IsSqrt sqrt) (o : Oracle K) (s : FSM K) (traj : LocalTrajData K)
    (st : List (Vec3 K)) (h : Tracked s EMERGENCY_STOP false traj st) :
    Tracked (execFSMCallback sqrt o s) GEN_NEW_TRAJ false traj st := by
  obtain ⟨h1, h2, h3, h4, h5, h6, h7, h8, h9⟩ := h
  have hv : s.odom_vel_.norm sqrt < 1 / 10 := by
    rw [h5]
    unfold Vec3.norm Vec3.squaredNorm Vec3.zero
    simp only [mul_zero, add_zero]
    rw [hsq.zero]
    norm_num
  rw [execFSMCallback_emergency sqrt o s h1, h2, if_neg (by simp), if_pos hv]
  unfold Tracked publishDataDisp
  simp [changeFSMExecState_eq, countFsmNum_eq, h3, h4, h5, h6, h7, h8, h9]

/-- A safety-monitor run outside `WAIT_TARGET` whose first sample is occupied:
`EXEC_TRAJ` when the replan succeeds, `EMERGENCY_STOP` when it fails (the
margin is 0); `flag_escape_emergency_` is not touched. -/
theorem tracked_safety_first_sample {K : Type} [LinearOrderedField K] [FloorRing K]
    (sqrt : K → K) (o : Oracle K) (s : FSM K) (st0 : FSM_EXEC_STATE) (f : Bool)
    (traj : LocalTrajData K) (st : List (Vec3 K)) (h : Tracked s st0 f traj st)
    (hst : st0 ≠ WAIT_TARGET)
    (hk : o.now - traj.start_time_ < traj.duration_)
    (hocc : o.getInflateOccupancy (traj.position_traj_ (o.now - traj.start_time_)) = true) :
    Tracked (checkCollisionCallback sqrt o s)
      (if (o.reboundReplan 0).success || (o.reboundReplan 1).success ||
          (o.reboundReplan 2).success then EXEC_TRAJ else EMERGENCY_STOP)
      f (o.reboundReplan (attempts o - 1)).local_data st := by
  obtain ⟨h1, h2, h3, h4, h5, h6, h7, h8, h9⟩ := h
  obtain ⟨Q, hQ⟩ := checkCollisionCallback_eq_of_first sqrt o s 0 (by rw [h1]; exact hst)
    (by rw [h3]; simpa using hk) (by rw [h3]; simpa using hocc) (by intro j hj; omega)
  rw [hQ, planFromCurrentTraj_eq]
  unfold Tracked
  have h45 : ((0 : Nat) : K) * time_step < 4 / 5 := by norm_num
  simp only [h45, if_true]
  simp [changeFSMExecState_eq, h2, h4, h5, h6, h7, h8, h9]


/-- Claim C8 fails on the code. In the execution `stoplessTrace`, from any
content of the object before `init`: after event 9 the state is `EXEC_TRAJ`,
event 10 (safety monitor) starts an emergency-stop episode, and event 11, a
core tick and the only event of the episode, ends it in `GEN_NEW_TRAJ`. The
only stop trajectory ever issued is the one of the first episode (event 7):
the second episode issues none, and the committed trajectory at its end is
the moving `rampTraj`, not a stop trajectory. -/
theorem emergency_episode_without_stop (raw : FSM ℝ) :
    (run Real.sqrt (init (demoParams ℝ) raw) ((stoplessTrace ℝ).take 6)).exec_state_ =
        EMERGENCY_STOP ∧
      (run Real.sqrt (init (demoParams ℝ) raw) ((stoplessTrace ℝ).take 7)).stop_calls_ =
        [Vec3.zero] ∧
      (run Real.sqrt (init (demoParams ℝ) raw) ((stoplessTrace ℝ).take 8)).exec_state_ =
        GEN_NEW_TRAJ ∧
      (run Real.sqrt (init (demoParams ℝ) raw) ((stoplessTrace ℝ).take 9)).exec_state_ =
        EXEC_TRAJ ∧
      (run Real.sqrt (init (demoParams ℝ) raw) ((stoplessTrace ℝ).take 10)).exec_state_ =
        EMERGENCY_STOP ∧
      (run Real.sqrt (init (demoParams ℝ) raw) ((stoplessTrace ℝ).take 10)).stop_calls_ =
        [Vec3.zero] ∧
      (stoplessTrace ℝ).drop 10 = [Event.execFSM (stopOracle ℝ)] ∧
      (run Real.sqrt (init (demoParams ℝ) raw) (stoplessTrace ℝ)).exec_state_ =
        GEN_NEW_TRAJ ∧
      (run Real.sqrt (init (demoParams ℝ) raw) (stoplessTrace ℝ)).stop_calls_ =
        [Vec3.zero] ∧
      (run Real.sqrt (init (demoParams ℝ) raw) (stoplessTrace ℝ)).local_data_ =
        rampTraj ℝ 2 := by
  have h2 := tracked_after_trigger raw
  have h3 := tracked_core_init Real.sqrt (freeOracle ℝ) _ _ _ _ h2
  have h4 := tracked_core_wait Real.sqrt (freeOracle ℝ) _ _ _ _ h3
  have h5 := tracked_core_gen_success Real.sqrt (freeOracle ℝ) _ _ _ _ h4 rfl
  have h6 := tracked_safety_first_sample Real.sqrt (wallOracle ℝ 0) _ _ _ _ _ h5 (by decide)
    (by norm_num [wallOracle, freeOracle, mkOracle, rampTraj, zeroTraj])
    (by norm_num [wallOracle, freeOracle, mkOracle, rampTraj, zeroTraj])
  have h7 := tracked_core_emergency_armed Real.sqrt (stopOracle ℝ) _ _ _ h6
  have h8 := tracked_core_emergency_disarmed isSqrt_real (stopOracle ℝ) _ _ _ h7
  have h9 := tracked_safety_first_sample Real.sqrt (rescueOracle ℝ) _ _ _ _ _ h8 (by decide)
    (by norm_num [stopOracle, rescueOracle, mkOracle, holdTraj, zeroTraj])
    (by norm_num [stopOracle, rescueOracle, mkOracle, holdTraj, zeroTraj, Vec3.zero])
  have h10 := tracked_safety_first_sample Real.sqrt (wallOracle ℝ 0) _ _ _ _ _ h9 (by decide)
    (by norm_num [wallOracle, rescueOracle, mkOracle, rampTraj, zeroTraj, attempts])
    (by norm_num [wallOracle, rescueOracle, mkOracle, rampTraj, zeroTraj, attempts])
  have h11 := tracked_core_emergency_disarmed isSqrt_real (stopOracle ℝ) _ _ _ h10
  simp only [stoplessTrace, List.take_succ_cons, List.take_zero, List.drop_succ_cons,
    List.drop_zero, run_cons, run_nil, step]
  exact ⟨h6.1, h7.2.2.2.1, h8.1, h9.1, h10.1, h10.2.2.2.1, trivial, h11.1, h11.2.2.2.1,
    h11.2.2.1⟩

/-! ### The core tick in `EXEC_TRAJ` and `REPLAN_TRAJ` -/

/-- The core tick in `EXEC_TRAJ`, written out. -/
theorem execFSMCallback_exec {K : Type} [LinearOrderedField K]
    (sqrt : K → K) (o : Oracle K) (s : FSM K) (hs : s.exec_state_ = EXEC_TRAJ) :
    execFSMCallback sqrt o s =
      if min s.local_data_.duration_ (o.now - s.local_data_.start_time_) >
          s.local_data_.duration_ - 1 / 100 then
        changeFSMExecState WAIT_TARGET { countFsmNum s with have_target_ := false }
      else if (s.end_pt_.sub (s.local_data_.position_traj_
          (min s.local_data_.duration_ (o.now - s.local_data_.start_time_)))).norm sqrt <
          s.no_replan_thresh_ then countFsmNum s
      else if (s.local_data_.start_pos_.sub (s.local_data_.position_traj_
          (min s.local_data_.duration_ (o.now - s.local_data_.start_time_)))).norm sqrt <
          s.replan_thresh_ then countFsmNum s
      else publishDataDisp (changeFSMExecState REPLAN_TRAJ (countFsmNum s)) := by
  have h := countFsmNum_exec_state s
  rw [hs] at h
  unfold execFSMCallback
  simp only []
  split <;> rename_i heq <;> rw [h] at heq <;> cases heq
  simp only [countFsmNum_eq]

/-- The core tick in `REPLAN_TRAJ`, written out. -/
theorem execFSMCallback_replan {K : Type} [LinearOrderedField K]
    (sqrt : K → K) (o : Oracle K) (s : FSM K) (hs : s.exec_state_ = REPLAN_TRAJ) :
    execFSMCallback sqrt o s =
      if (planFromCurrentTraj sqrt o (countFsmNum s)).1 then
        publishDataDisp (changeFSMExecState EXEC_TRAJ (planFromCurrentTraj sqrt o (countFsmNum s)).2)
      else
        publishDataDisp
          (changeFSMExecState REPLAN_TRAJ (planFromCurrentTraj sqrt o (countFsmNum s)).2) := by
  have h := countFsmNum_exec_state s
  rw [hs] at h
  unfold execFSMCallback
  simp only []
  split <;> rename_i heq <;> rw [h] at heq <;> cases heq

/-- Claim C11. A core tick in `EXEC_TRAJ` at which the time elapsed since the
start of the committed trajectory is at least its duration ends in
`WAIT_TARGET` with `have_target_` cleared, whatever the thresholds and the
distances of the near-end and near-start tests are. -/
theorem execFSMCallback_trajectory_finished {K : Type} [LinearOrderedField K]
    (sqrt : K → K) (o : Oracle K) (s : FSM K) (hs : s.exec_state_ = EXEC_TRAJ)
    (hel : s.local_data_.duration_ ≤ o.now - s.local_data_.start_time_) :
    (execFSMCallback sqrt o s).exec_state_ = WAIT_TARGET ∧
      (execFSMCallback sqrt o s).have_target_ = false := by
  have hmin : min s.local_data_.duration_ (o.now - s.local_data_.start_time_) =
      s.local_data_.duration_ := min_eq_left hel
  rw [execFSMCallback_exec sqrt o s hs, hmin, if_pos (by linarith)]
  simp [changeFSMExecState_eq]

/-- Claim C17. A core tick in `EXEC_TRAJ` at which the completion test of the
source is false (the elapsed time, capped at the duration, is not above
`duration - 0.01`) samples the committed position `p` at the elapsed time.
When `p` is nearer to the goal than `no_replan_thresh_`, or else nearer to
the start of the trajectory than `replan_thresh_`, the tick leaves the state,
the counter and the log of optimizer calls as they are; otherwise it ends in
`REPLAN_TRAJ` with counter 1, again without an optimizer call. -/
theorem execFSMCallback_progress {K : Type} [LinearOrderedField K]
    (sqrt : K → K) (o : Oracle K) (s : FSM K) (hs : s.exec_state_ = EXEC_TRAJ)
    (hnc : ¬ min s.local_data_.duration_ (o.now - s.local_data_.start_time_) >
      s.local_data_.duration_ - 1 / 100) :
    min s.local_data_.duration_ (o.now - s.local_data_.start_time_) =
        o.now - s.local_data_.start_time_ ∧
      ((s.end_pt_.sub (s.local_data_.position_traj_
            (o.now - s.local_data_.start_time_))).norm sqrt < s.no_replan_thresh_ ∨
          (s.local_data_.start_pos_.sub (s.local_data_.position_traj_
            (o.now - s.local_data_.start_time_))).norm sqrt < s.replan_thresh_ →
        (execFSMCallback sqrt o s).exec_state_ = EXEC_TRAJ ∧
          (execFSMCallback sqrt o s).continously_called_times_ =
            s.continously_called_times_ ∧
          (execFSMCallback sqrt o s).replan_calls_ = s.replan_calls_) ∧
      (¬ (s.end_pt_.sub (s.local_data_.position_traj_
            (o.now - s.local_data_.start_time_))).norm sqrt < s.no_replan_thresh_ ∧
          ¬ (s.local_data_.start_pos_.sub (s.local_data_.position_traj_
            (o.now - s.local_data_.start_time_))).norm sqrt < s.replan_thresh_ →
        (execFSMCallback sqrt o s).exec_state_ = REPLAN_TRAJ ∧
          (execFSMCallback sqrt o s).continously_called_times_ = 1 ∧
          (execFSMCallback sqrt o s).replan_calls_ = s.replan_calls_) := by
  have hmin : min s.local_data_.duration_ (o.now - s.local_data_.start_time_) =
      o.now - s.local_data_.start_time_ := by
    rcases le_total s.local_data_.duration_ (o.now - s.local_data_.start_time_) with h | h
    · exfalso
      apply hnc
      rw [min_eq_left h]
      linarith
    · exact min_eq_right h
  have hexec := execFSMCallback_exec sqrt o s hs
  rw [if_neg hnc, hmin] at hexec
  refine ⟨hmin, ?_, ?_⟩
  · intro hnear
    rw [hexec]
    split_ifs with h1 h2
    · simp [countFsmNum_eq, hs]
    · simp [countFsmNum_eq, hs]
    · exact absurd hnear (by push_neg; exact ⟨not_lt.1 h1, not_lt.1 h2⟩)
  · rintro ⟨h1, h2⟩
    rw [hexec, if_neg h1, if_neg h2]
    simp [publishDataDisp, changeFSMExecState_eq, countFsmNum_eq, hs]

/-- Claim C14. In `WAIT_TARGET` a run of `checkCollisionCallback` returns the
object as it received it: the state, the counter, the logs of occupancy
queries and of optimizer calls, and every other member are unchanged. -/
theorem checkCollisionCallback_wait_target {K : Type} [LinearOrderedField K] [FloorRing K]
    (sqrt : K → K) (o : Oracle K) (s : FSM K) (hs : s.exec_state_ = WAIT_TARGET) :
    checkCollisionCallback sqrt o s = s ∧
      (checkCollisionCallback sqrt o s).occ_queries_ = s.occ_queries_ ∧
      (checkCollisionCallback sqrt o s).replan_calls_ = s.replan_calls_ ∧
      (checkCollisionCallback sqrt o s).exec_state_ = s.exec_state_ ∧
      (checkCollisionCallback sqrt o s).continously_called_times_ =
        s.continously_called_times_ := by
  have h : checkCollisionCallback sqrt o s = s := by
    unfold checkCollisionCallback
    rw [if_pos hs]
  rw [h]
  exact ⟨rfl, rfl, rfl, rfl, rfl⟩

/-- Claim C15. A goal trigger that passes the altitude check and whose global
plan fails leaves the state, the counter, `have_target_` and
`have_new_target_` as they were. -/
theorem waypointCallback_plan_failed {K : Type} [LinearOrderedField K]
    (pos : Vec3 K) (s : FSM K) (halt : ¬ pos.z < -(1 / 10)) :
    (waypointCallback pos false s).exec_state_ = s.exec_state_ ∧
      (waypointCallback pos false s).continously_called_times_ =
        s.continously_called_times_ ∧
      (waypointCallback pos false s).have_target_ = s.have_target_ ∧
      (waypointCallback pos false s).have_new_target_ = s.have_new_target_ := by
  unfold waypointCallback
  rw [if_neg halt]
  simp only [Bool.false_eq_true, if_false]
  split_ifs <;> exact ⟨rfl, rfl, rfl, rfl⟩

/-- A goal trigger that passes the altitude check, written out. -/
theorem waypointCallback_eq {K : Type} [LinearOrderedField K]
    (pos : Vec3 K) (plan_ok : Bool) (s : FSM K) (halt : ¬ pos.z < -(1 / 10)) :
    waypointCallback pos plan_ok s =
      if plan_ok then
        if s.exec_state_ = WAIT_TARGET then
          changeFSMExecState GEN_NEW_TRAJ
            { afterGoalSelection pos s with
              end_vel_ := Vec3.zero, have_target_ := true, have_new_target_ := true }
        else if s.exec_state_ = EXEC_TRAJ then
          changeFSMExecState REPLAN_TRAJ
            { afterGoalSelection pos s with
              end_vel_ := Vec3.zero, have_target_ := true, have_new_target_ := true }
        else
          { afterGoalSelection pos s with
            end_vel_ := Vec3.zero, have_target_ := true, have_new_target_ := true }
      else afterGoalSelection pos s := by
  unfold waypointCallback afterGoalSelection selectedGoal nextWaypointIndex
  rw [if_neg halt]
  by_cases h1 : s.target_type_ = MANUAL_TARGET
  · simp only [h1, if_true]
  · by_cases h2 : s.target_type_ = PRESET_TARGET
    · have hne : PRESET_TARGET ≠ MANUAL_TARGET := by decide
      simp only [h2, hne, if_true, if_false]
    · simp only [h1, h2, if_false]

/-- One step from `WAIT_TARGET` ends in `WAIT_TARGET` or `GEN_NEW_TRAJ`. -/
theorem step_from_wait_target {K : Type} [LinearOrderedField K] [FloorRing K]
    (sqrt : K → K) (s : FSM K) (hs : s.exec_state_ = WAIT_TARGET) (e : Event K) :
    (step sqrt s e).exec_state_ = WAIT_TARGET ∨
      (step sqrt s e).exec_state_ = GEN_NEW_TRAJ := by
  cases e with
  | execFSM o =>
    show (execFSMCallback sqrt o s).exec_state_ = _ ∨ (execFSMCallback sqrt o s).exec_state_ = _
    rw [execFSMCallback_wait sqrt o s hs]
    split_ifs
    · right
      simp [publishDataDisp, changeFSMExecState_eq]
    · left
      rw [countFsmNum_exec_state, hs]
  | checkCollision o =>
    left
    show (checkCollisionCallback sqrt o s).exec_state_ = _
    unfold checkCollisionCallback
    rw [if_pos hs, hs]
  | odometry pos vel orient =>
    left
    exact hs
  | waypoint pos plan_ok =>
    show (waypointCallback pos plan_ok s).exec_state_ = _ ∨
      (waypointCallback pos plan_ok s).exec_state_ = _
    by_cases halt : pos.z < -(1 / 10)
    · left
      unfold waypointCallback
      rw [if_pos halt, hs]
    · rw [waypointCallback_eq pos plan_ok s halt]
      cases plan_ok
      · left
        simpa [afterGoalSelection] using hs
      · right
        simp [hs, changeFSMExecState_eq]

/-- Claim C12. From `WAIT_TARGET` every single step (core tick, safety-monitor
tick, odometry update, goal trigger) ends in `WAIT_TARGET` or `GEN_NEW_TRAJ`,
never in `EXEC_TRAJ`; hence an execution that starts in `WAIT_TARGET` and ends
in `EXEC_TRAJ` has passed through `GEN_NEW_TRAJ`. -/
theorem wait_target_successors {K : Type} [LinearOrderedField K] [FloorRing K]
    (sqrt : K → K) (s : FSM K) (hs : s.exec_state_ = WAIT_TARGET) :
    (∀ e : Event K, ((step sqrt s e).exec_state_ = WAIT_TARGET ∨
        (step sqrt s e).exec_state_ = GEN_NEW_TRAJ) ∧
        (step sqrt s e).exec_state_ ≠ EXEC_TRAJ) ∧
      (∀ es : List (Event K), (run sqrt s es).exec_state_ = EXEC_TRAJ →
        ∃ n : Nat, n ≤ es.length ∧
          (run sqrt s (es.take n)).exec_state_ = GEN_NEW_TRAJ) := by
  constructor
  · intro e
    have h := step_from_wait_target sqrt s hs e
    refine ⟨h, ?_⟩
    rcases h with h | h <;> rw [h] <;> decide
  · intro es
    induction es generalizing s with
    | nil =>
      intro hfin
      rw [run_nil, hs] at hfin
      cases hfin
    | cons e es ih =>
      intro hfin
      rw [run_cons] at hfin
      rcases step_from_wait_target sqrt s hs e with h | h
      · obtain ⟨n, hn, hgen⟩ := ih (step sqrt s e) h hfin
        exact ⟨n + 1, by simpa using hn, by simpa [run_cons] using hgen⟩
      · exact ⟨1, by simp, by simpa [run_cons, run_nil] using h⟩

/-- Instance of `wait_target_successors`: a core tick of `waitingState`. -/
theorem wait_target_successors_witness :
    (waitingState ℝ).exec_state_ = WAIT_TARGET ∧
      (step Real.sqrt (waitingState ℝ) (Event.execFSM (clockOracle ℝ 0))).exec_state_ ≠
        EXEC_TRAJ :=
  ⟨rfl, ((wait_target_successors Real.sqrt (waitingState ℝ) rfl).1
    (Event.execFSM (clockOracle ℝ 0))).2⟩


/-- Instance of `execFSMCallback_trajectory_finished`: `flyingState` at time 3,
past the duration 2 of its trajectory. -/
theorem execFSMCallback_trajectory_finished_witness :
    (flyingState ℝ).exec_state_ = EXEC_TRAJ ∧
      (flyingState ℝ).local_data_.duration_ ≤
        (clockOracle ℝ 3).now - (flyingState ℝ).local_data_.start_time_ ∧
      (execFSMCallback Real.sqrt (clockOracle ℝ 3) (flyingState ℝ)).exec_state_ = WAIT_TARGET ∧
      (execFSMCallback Real.sqrt (clockOracle ℝ 3) (flyingState ℝ)).have_target_ = false := by
  have hel : (flyingState ℝ).local_data_.duration_ ≤
      (clockOracle ℝ 3).now - (flyingState ℝ).local_data_.start_time_ := by
    norm_num [flyingState, rampTraj, zeroTraj, clockOracle, mkOracle]
  exact ⟨rfl, hel, execFSMCallback_trajectory_finished Real.sqrt (clockOracle ℝ 3)
    (flyingState ℝ) rfl hel⟩

/-- Instance of `execFSMCallback_progress`: `flyingState` at time 1, with both
thresholds 0, ends in `REPLAN_TRAJ` with counter 1. -/
theorem execFSMCallback_progress_witness :
    (flyingState ℝ).exec_state_ = EXEC_TRAJ ∧
      (¬ min (flyingState ℝ).local_data_.duration_
          ((clockOracle ℝ 1).now - (flyingState ℝ).local_data_.start_time_) >
        (flyingState ℝ).local_data_.duration_ - 1 / 100) ∧
      (execFSMCallback Real.sqrt (clockOracle ℝ 1) (flyingState ℝ)).exec_state_ = REPLAN_TRAJ ∧
      (execFSMCallback Real.sqrt (clockOracle ℝ 1) (flyingState ℝ)).continously_called_times_
        = 1 := by
  have hnc : ¬ min (flyingState ℝ).local_data_.duration_
      ((clockOracle ℝ 1).now - (flyingState ℝ).local_data_.start_time_) >
      (flyingState ℝ).local_data_.duration_ - 1 / 100 := by
    norm_num [flyingState, rampTraj, zeroTraj, clockOracle, mkOracle]
  have h := (execFSMCallback_progress Real.sqrt (clockOracle ℝ 1) (flyingState ℝ) rfl hnc).2.2
    ⟨not_lt.2 (Vec3.norm_nonneg isSqrt_real _), not_lt.2 (Vec3.norm_nonneg isSqrt_real _)⟩
  exact ⟨rfl, hnc, h.1, h.2.1⟩

/-- Instance of `checkCollisionCallback_wait_target`: `waitingState` is left
as it is. -/
theorem checkCollisionCallback_wait_target_witness :
    (waitingState ℝ).exec_state_ = WAIT_TARGET ∧
      checkCollisionCallback Real.sqrt (wallOracle ℝ 0) (waitingState ℝ) = waitingState ℝ :=
  ⟨rfl, (checkCollisionCallback_wait_target Real.sqrt (wallOracle ℝ 0) (waitingState ℝ) rfl).1⟩

/-- Instance of `waypointCallback_plan_failed`: a trigger at altitude 0 in
`flyingState` whose global plan fails. -/
theorem waypointCallback_plan_failed_witness :
    (¬ (⟨10, 0, 0⟩ : Vec3 ℝ).z < -(1 / 10)) ∧
      (waypointCallback ⟨10, 0, 0⟩ false (flyingState ℝ)).exec_state_ = EXEC_TRAJ ∧
      (waypointCallback ⟨10, 0, 0⟩ false (flyingState ℝ)).have_new_target_ = false := by
  have halt : ¬ (⟨10, 0, 0⟩ : Vec3 ℝ).z < -(1 / 10) := by norm_num
  have h := waypointCallback_plan_failed ⟨10, 0, 0⟩ (flyingState ℝ) halt
  exact ⟨halt, h.1, h.2.2.2⟩

/-! ### Frame properties of the callbacks -/

/-- The outcome of a safety-monitor run: either only occupancy queries were
logged, or the run ended at an occupied sample with a state change applied to
the result of `planFromCurrentTraj`. -/
theorem checkCollisionCallback_cases {K : Type} [LinearOrderedField K] [FloorRing K]
    (sqrt : K → K) (o : Oracle K) (s : FSM K) :
    (∃ Q : List (Vec3 K), checkCollisionCallback sqrt o s = { s with occ_queries_ := Q }) ∨
      (∃ (Q : List (Vec3 K)) (X : FSM_EXEC_STATE), checkCollisionCallback sqrt o s =
        changeFSMExecState X (planFromCurrentTraj sqrt o { s with occ_queries_ := Q }).2) := by
  classical
  by_cases hw : s.exec_state_ = WAIT_TARGET
  · left
    refine ⟨s.occ_queries_, ?_⟩
    unfold checkCollisionCallback
    rw [if_pos hw]
  · by_cases hex : ∃ k : Nat,
        o.now - s.local_data_.start_time_ + (k : K) * time_step < s.local_data_.duration_ ∧
        o.getInflateOccupancy (s.local_data_.position_traj_
          (o.now - s.local_data_.start_time_ + (k : K) * time_step)) = true
    · right
      obtain ⟨hk, hocc⟩ := Nat.find_spec hex
      obtain ⟨Q, hQ⟩ := checkCollisionCallback_eq_of_first sqrt o s (Nat.find hex) hw hk hocc
        (fun j hj => by
          have hmin := Nat.find_min hex hj
          by_cases hr : o.now - s.local_data_.start_time_ + (j : K) * time_step <
              s.local_data_.duration_
          · cases hb : o.getInflateOccupancy (s.local_data_.position_traj_
                (o.now - s.local_data_.start_time_ + (j : K) * time_step))
            · rfl
            · exact absurd ⟨hr, hb⟩ hmin
          · exfalso
            apply hr
            have hjk : (j : K) ≤ ((Nat.find hex : Nat) : K) := by exact_mod_cast hj.le
            have hstep : (0 : K) < time_step := by unfold time_step; norm_num
            nlinarith)
      exact ⟨Q, _, hQ⟩
    · left
      push_neg at hex
      exact checkCollisionCallback_eq_of_clear sqrt o s (fun k hk => by
        cases hb : o.getInflateOccupancy (s.local_data_.position_traj_
            (o.now - s.local_data_.start_time_ + (k : K) * time_step))
        · rfl
        · exact absurd hb (hex k hk))

/-- The core tick does not touch the goal-selection members. -/
theorem execFSMCallback_waypoint_members {K : Type} [LinearOrderedField K]
    (sqrt : K → K) (o : Oracle K) (s : FSM K) :
    (execFSMCallback sqrt o s).target_type_ = s.target_type_ ∧
      (execFSMCallback sqrt o s).waypoint_num_ = s.waypoint_num_ ∧
      (execFSMCallback sqrt o s).waypoints_ = s.waypoints_ ∧
      (execFSMCallback sqrt o s).current_wp_ = s.current_wp_ := by
  cases hs : s.exec_state_
  · rw [execFSMCallback_init sqrt o s hs]
    split_ifs <;> simp [publishDataDisp, changeFSMExecState_eq, countFsmNum_eq]
  · rw [execFSMCallback_wait sqrt o s hs]
    split_ifs <;> simp [publishDataDisp, changeFSMExecState_eq, countFsmNum_eq]
  · rw [execFSMCallback_gen sqrt o s hs]
    split_ifs <;>
      simp [publishDataDisp, changeFSMExecState_eq, countFsmNum_eq, callReboundReplan_snd]
  · rw [execFSMCallback_replan sqrt o s hs, planFromCurrentTraj_eq]
    split_ifs <;> simp [publishDataDisp, changeFSMExecState_eq, countFsmNum_eq]
  · rw [execFSMCallback_exec sqrt o s hs]
    split_ifs <;> simp [publishDataDisp, changeFSMExecState_eq, countFsmNum_eq]
  · rw [execFSMCallback_emergency sqrt o s hs]
    split_ifs <;>
      simp [publishDataDisp, changeFSMExecState_eq, countFsmNum_eq, callEmergencyStop]

/-- The safety monitor does not touch the goal-selection members. -/
theorem checkCollisionCallback_waypoint_members {K : Type} [LinearOrderedField K]
    [FloorRing K] (sqrt : K → K) (o : Oracle K) (s : FSM K) :
    (checkCollisionCallback sqrt o s).target_type_ = s.target_type_ ∧
      (checkCollisionCallback sqrt o s).waypoint_num_ = s.waypoint_num_ ∧
      (checkCollisionCallback sqrt o s).waypoints_ = s.waypoints_ ∧
      (checkCollisionCallback sqrt o s).current_wp_ = s.current_wp_ := by
  rcases checkCollisionCallback_cases sqrt o s with ⟨Q, hQ⟩ | ⟨Q, X, hQ⟩
  · rw [hQ]
    exact ⟨rfl, rfl, rfl, rfl⟩
  · rw [hQ, planFromCurrentTraj_eq]
    simp [changeFSMExecState_eq]

/-- A goal trigger does not touch the goal-selection parameters, and in preset
mode a trigger that passes the altitude check takes the current waypoint as
goal and advances the index. -/
theorem waypointCallback_waypoint_members {K : Type} [LinearOrderedField K]
    (pos : Vec3 K) (plan_ok : Bool) (s : FSM K) :
    (waypointCallback pos plan_ok s).target_type_ = s.target_type_ ∧
      (waypointCallback pos plan_ok s).waypoint_num_ = s.waypoint_num_ ∧
      (waypointCallback pos plan_ok s).waypoints_ = s.waypoints_ ∧
      (waypointCallback pos plan_ok s).current_wp_ =
        (if pos.z < -(1 / 10) then s.current_wp_ else nextWaypointIndex s) ∧
      (¬ pos.z < -(1 / 10) → (waypointCallback pos plan_ok s).end_pt_ = selectedGoal pos s) := by
  by_cases halt : pos.z < -(1 / 10)
  · have h : waypointCallback pos plan_ok s = s := by
      unfold waypointCallback
      rw [if_pos halt]
    rw [h, if_pos halt]
    exact ⟨rfl, rfl, rfl, rfl, fun h => absurd halt h⟩
  · rw [waypointCallback_eq pos plan_ok s halt, if_neg halt]
    cases plan_ok <;> simp only [Bool.false_eq_true, if_false, if_true]
    · exact ⟨rfl, rfl, rfl, rfl, fun _ => rfl⟩
    · split_ifs <;> simp [changeFSMExecState_eq, afterGoalSelection]

/-- In preset mode with `n ≥ 1` waypoints and the index at `j mod n`, after an
execution with `k` triggers that pass the altitude check the index is
`(j + k) mod n`, and the goal-selection parameters are unchanged. -/
theorem run_preset_index {K : Type} [LinearOrderedField K] [FloorRing K] (sqrt : K → K)
    (n : Int) (hpos : 1 ≤ n) :
    ∀ (es : List (Event K)) (s : FSM K) (j : Nat), s.target_type_ = PRESET_TARGET →
      s.waypoint_num_ = n → s.current_wp_ = (j : Int) % n →
      (run sqrt s es).target_type_ = PRESET_TARGET ∧
        (run sqrt s es).waypoint_num_ = n ∧
        (run sqrt s es).waypoints_ = s.waypoints_ ∧
        (run sqrt s es).current_wp_ =
          ((j + es.countP Event.passesAltitude : Nat) : Int) % n := by
  intro es
  induction es with
  | nil =>
    intro s j hm hn hc
    simpa [run_nil] using ⟨hm, hn, hc⟩
  | cons e es ih =>
    intro s j hm hn hc
    rw [run_cons, List.countP_cons]
    cases e with
    | execFSM o =>
      obtain ⟨h1, h2, h3, h4⟩ := execFSMCallback_waypoint_members sqrt o s
      have := ih (step sqrt s (.execFSM o)) j (by rw [← hm]; exact h1) (by rw [← hn]; exact h2)
        (by rw [← hc]; exact h4)
      simpa [Event.passesAltitude, show (step sqrt s (.execFSM o)).waypoints_ = s.waypoints_
        from h3] using this
    | checkCollision o =>
      obtain ⟨h1, h2, h3, h4⟩ := checkCollisionCallback_waypoint_members sqrt o s
      have := ih (step sqrt s (.checkCollision o)) j (by rw [← hm]; exact h1)
        (by rw [← hn]; exact h2) (by rw [← hc]; exact h4)
      simpa [Event.passesAltitude,
        show (step sqrt s (.checkCollision o)).waypoints_ = s.waypoints_ from h3] using this
    | odometry p v q =>
      have := ih (step sqrt s (.odometry p v q)) j hm hn hc
      simpa [Event.passesAltitude,
        show (step sqrt s (.odometry p v q)).waypoints_ = s.waypoints_ from rfl] using this
    | waypoint pos ok =>
      obtain ⟨h1, h2, h3, h4, -⟩ := waypointCallback_waypoint_members pos ok s
      by_cases halt : pos.z < -(1 / 10)
      · rw [if_pos halt] at h4
        have hpa : Event.passesAltitude (Event.waypoint pos ok) = false := by
          show (!decide (pos.z < -(1 / 10))) = false
          rw [decide_eq_true halt]
          rfl
        have := ih (step sqrt s (.waypoint pos ok)) j (by rw [← hm]; exact h1)
          (by rw [← hn]; exact h2) (by rw [← hc]; exact h4)
        rw [hpa]
        simpa [show (step sqrt s (.waypoint pos ok)).waypoints_ = s.waypoints_ from h3]
          using this
      · rw [if_neg halt] at h4
        have hnext : nextWaypointIndex s = ((j + 1 : Nat) : Int) % n := by
          unfold nextWaypointIndex
          have hne : PRESET_TARGET ≠ MANUAL_TARGET := by decide
          rw [hm, if_neg hne, if_pos rfl, hn, hc,
            Int.tmod_eq_emod (by have := Int.emod_nonneg (j : Int) (show n ≠ 0 by omega); omega)
              (by omega),
            Int.emod_add_emod]
          push_cast
          rfl
        have := ih (step sqrt s (.waypoint pos ok)) (j + 1) (by rw [← hm]; exact h1)
          (by rw [← hn]; exact h2) (by rw [← hnext]; exact h4)
        have hpa : Event.passesAltitude (Event.waypoint pos ok) = true := by
          show (!decide (pos.z < -(1 / 10))) = true
          rw [decide_eq_false halt]
          rfl
        have hcount : j + 1 + List.countP Event.passesAltitude es =
            j + (List.countP Event.passesAltitude es + 1) := by omega
        rw [hpa, if_pos rfl, ← hcount]
        simpa [show (step sqrt s (.waypoint pos ok)).waypoints_ = s.waypoints_ from h3]
          using this

/-- Claim C16. In preset mode with `n ≥ 1` waypoints and the index at 0, after
any execution that contains `k` goal triggers passing the altitude check the
index is `k mod n`, which lies in `0 ≤ index < n`, and the next trigger that
passes the altitude check, the `k`-th counted from 0, sets the goal to
waypoint number `k mod n`. -/
theorem preset_waypoints_cycle {K : Type} [LinearOrderedField K] [FloorRing K]
    (sqrt : K → K) (s : FSM K) (n : Int) (hmode : s.target_type_ = PRESET_TARGET)
    (hn : s.waypoint_num_ = n) (hpos : 1 ≤ n) (h0 : s.current_wp_ = 0)
    (es : List (Event K)) :
    (run sqrt s es).current_wp_ = ((es.countP Event.passesAltitude : Nat) : Int) % n ∧
      0 ≤ (run sqrt s es).current_wp_ ∧
      (run sqrt s es).current_wp_ < n ∧
      (∀ (pos : Vec3 K) (plan_ok : Bool), ¬ pos.z < -(1 / 10) →
        (waypointCallback pos plan_ok (run sqrt s es)).end_pt_ =
          s.waypoints_ (((es.countP Event.passesAltitude : Nat) : Int) % n)) := by
  obtain ⟨h1, h2, h3, h4⟩ := run_preset_index sqrt n hpos es s 0 hmode hn
    (by rw [h0]; simp)
  rw [Nat.zero_add] at h4
  refine ⟨h4, ?_, ?_, ?_⟩
  · rw [h4]
    exact Int.emod_nonneg _ (by omega)
  · rw [h4]
    exact Int.emod_lt_of_pos _ (by omega)
  · intro pos plan_ok halt
    rw [(waypointCallback_waypoint_members pos plan_ok (run sqrt s es)).2.2.2.2 halt]
    unfold selectedGoal
    have hne : PRESET_TARGET ≠ MANUAL_TARGET := by decide
    rw [h1, if_neg hne, if_pos rfl, h3, h4]

/-- Instance of `preset_waypoints_cycle`: three waypoints; after four
triggers that pass the altitude check, with a core tick in between, the index
is `4 mod 3 = 1`. -/
theorem preset_waypoints_cycle_witness :
    (presetState ℝ).target_type_ = PRESET_TARGET ∧
      (presetState ℝ).waypoint_num_ = 3 ∧
      (presetState ℝ).current_wp_ = 0 ∧
      (run Real.sqrt (presetState ℝ)
        [.waypoint ⟨0, 0, 0⟩ true, .waypoint ⟨0, 0, 0⟩ false, .execFSM (freeOracle ℝ),
          .waypoint ⟨0, 0, 0⟩ true, .waypoint ⟨0, 0, 0⟩ true]).current_wp_ = 1 := by
  have hcount : (([.waypoint ⟨0, 0, 0⟩ true, .waypoint ⟨0, 0, 0⟩ false,
      .execFSM (freeOracle ℝ), .waypoint ⟨0, 0, 0⟩ true, .waypoint ⟨0, 0, 0⟩ true] :
      List (Event ℝ)).countP Event.passesAltitude) = 4 := by
    norm_num [List.countP_cons, Event.passesAltitude]
  have h := (preset_waypoints_cycle Real.sqrt (presetState ℝ) 3 rfl rfl (by norm_num) rfl
    [.waypoint ⟨0, 0, 0⟩ true, .waypoint ⟨0, 0, 0⟩ false, .execFSM (freeOracle ℝ),
      .waypoint ⟨0, 0, 0⟩ true, .waypoint ⟨0, 0, 0⟩ true]).1
  rw [hcount] at h
  refine ⟨rfl, rfl, rfl, ?_⟩
  rw [h]
  norm_num

/-! ### The one-shot flag `have_new_target_` -/

theorem readsOf_false (m : Nat) : readsOf false m = List.replicate m false := by
  cases m <;> simp [readsOf, List.replicate_succ]

theorem readsOf_append (b : Bool) (m m' : Nat) :
    readsOf b m ++ readsOf (if m = 0 then b else false) m' = readsOf b (m + m') := by
  cases m with
  | zero => simp [readsOf]
  | succ m =>
    have hadd : m + 1 + m' = (m + m') + 1 := by omega
    rw [if_neg (Nat.succ_ne_zero m), readsOf_false, hadd]
    show b :: List.replicate m false ++ List.replicate m' false =
      b :: List.replicate (m + m') false
    rw [List.cons_append, ← List.replicate_add]

theorem ReadsStep.of_eq {K : Type} {s s' : FSM K}
    (h1 : s'.replan_calls_ = s.replan_calls_)
    (h2 : s'.new_target_reads_ = s.new_target_reads_)
    (h3 : s'.have_new_target_ = s.have_new_target_) : ReadsStep s s' :=
  ⟨[], by simp [h1], by simp [h2, readsOf], by simp [h3], by simp⟩

theorem ReadsStep.trans {K : Type} {s s' s'' : FSM K} (h : ReadsStep s s')
    (h' : ReadsStep s' s'') : ReadsStep s s'' := by
  obtain ⟨cs, h1, h2, h3, h4⟩ := h
  obtain ⟨cs', h1', h2', h3', h4'⟩ := h'
  refine ⟨cs ++ cs', ?_, ?_, ?_, ?_⟩
  · rw [h1', h1, List.append_assoc]
  · rw [h2', h2, h3, List.append_assoc, List.length_append]
    congr 1
    have hiff : (cs = []) ↔ cs.length = 0 := List.length_eq_zero.symm
    simp only [hiff]
    exact readsOf_append _ _ _
  · rw [h3', h3]
    cases cs <;> cases cs' <;> simp
  · intro ht c hc
    cases cs with
    | nil =>
      simp only [List.nil_append] at hc
      exact h4' (by rw [h3]; simpa using ht) c hc
    | cons a cs => exact h4 ht c (by simpa using hc)

theorem planFromCurrentTraj_reads {K : Type} [LinearOrderedField K]
    (sqrt : K → K) (o : Oracle K) (s : FSM K) :
    (planFromCurrentTraj sqrt o s).2.new_target_reads_ =
      s.new_target_reads_ ++ readsOf s.have_new_target_ (attempts o) := by
  unfold planFromCurrentTraj attempts
  simp only [callReboundReplan_fst, callReboundReplan_snd]
  cases (o.reboundReplan 0).success <;> cases (o.reboundReplan 1).success <;>
    cases (o.reboundReplan 2).success <;> simp [readsOf]

theorem readsStep_planFromCurrentTraj {K : Type} [LinearOrderedField K]
    (sqrt : K → K) (o : Oracle K) (s : FSM K) :
    ReadsStep s (planFromCurrentTraj sqrt o s).2 := by
  have hlen : ((escalation s.have_new_target_).take (attempts o)).length = attempts o := by
    unfold attempts escalation
    split_ifs <;> rfl
  refine ⟨(escalation s.have_new_target_).take (attempts o),
    planFromCurrentTraj_calls sqrt o s, ?_, ?_, ?_⟩
  · rw [planFromCurrentTraj_reads, hlen]
  · rw [planFromCurrentTraj_eq]
    have hne : (escalation s.have_new_target_).take (attempts o) ≠ [] := by
      unfold attempts escalation
      split_ifs <;> simp
    simp [hne]
  · intro ht c hc
    unfold attempts escalation at hc
    split_ifs at hc <;> simp at hc <;> rw [← hc] <;> exact ht

theorem readsStep_execFSMCallback {K : Type} [LinearOrderedField K]
    (sqrt : K → K) (o : Oracle K) (s : FSM K) :
    ReadsStep s (execFSMCallback sqrt o s) := by
  cases hs : s.exec_state_
  · rw [execFSMCallback_init sqrt o s hs]
    apply ReadsStep.of_eq <;> split_ifs <;>
      simp [publishDataDisp, changeFSMExecState_eq, countFsmNum_eq]
  · rw [execFSMCallback_wait sqrt o s hs]
    apply ReadsStep.of_eq <;> split_ifs <;>
      simp [publishDataDisp, changeFSMExecState_eq, countFsmNum_eq]
  · rw [execFSMCallback_gen sqrt o s hs]
    refine ⟨[⟨true, decide (s.continously_called_times_ ≠ 1)⟩], ?_, ?_, ?_, ?_⟩
    · split_ifs <;>
        simp [publishDataDisp, changeFSMExecState_eq, countFsmNum_eq, callReboundReplan_snd]
    · split_ifs <;>
        simp [publishDataDisp, changeFSMExecState_eq, countFsmNum_eq, callReboundReplan_snd,
          readsOf]
    · rw [if_neg (List.cons_ne_nil _ _)]
      split_ifs <;>
        simp [publishDataDisp, changeFSMExecState_eq, countFsmNum_eq, callReboundReplan_snd]
    · intro _ c hc
      simp only [List.head?_cons, Option.some.injEq] at hc
      rw [← hc]
  · rw [execFSMCallback_replan sqrt o s hs]
    have h := readsStep_planFromCurrentTraj sqrt o (countFsmNum s)
    have h0 : ReadsStep s (countFsmNum s) := by
      apply ReadsStep.of_eq <;> simp [countFsmNum_eq]
    refine ReadsStep.trans (h0.trans h) ?_
    apply ReadsStep.of_eq <;> split_ifs <;> simp [publishDataDisp, changeFSMExecState_eq]
  · rw [execFSMCallback_exec sqrt o s hs]
    apply ReadsStep.of_eq <;> split_ifs <;>
      simp [publishDataDisp, changeFSMExecState_eq, countFsmNum_eq]
  · rw [execFSMCallback_emergency sqrt o s hs]
    apply ReadsStep.of_eq <;> split_ifs <;>
      simp [publishDataDisp, changeFSMExecState_eq, countFsmNum_eq, callEmergencyStop]

theorem readsStep_checkCollisionCallback {K : Type} [LinearOrderedField K] [FloorRing K]
    (sqrt : K → K) (o : Oracle K) (s : FSM K) :
    ReadsStep s (checkCollisionCallback sqrt o s) := by
  rcases checkCollisionCallback_cases sqrt o s with ⟨Q, hQ⟩ | ⟨Q, X, hQ⟩
  · rw [hQ]
    exact ReadsStep.of_eq rfl rfl rfl
  · rw [hQ]
    have h0 : ReadsStep s { s with occ_queries_ := Q } := ReadsStep.of_eq rfl rfl rfl
    refine ReadsStep.trans (h0.trans (readsStep_planFromCurrentTraj sqrt o _)) ?_
    apply ReadsStep.of_eq <;> simp [changeFSMExecState_eq]

theorem readsStep_step {K : Type} [LinearOrderedField K] [FloorRing K]
    (sqrt : K → K) (s : FSM K) (e : Event K) (he : Event.acceptedTrigger e = false) :
    ReadsStep s (step sqrt s e) := by
  cases e with
  | execFSM o => exact readsStep_execFSMCallback sqrt o s
  | checkCollision o => exact readsStep_checkCollisionCallback sqrt o s
  | odometry p v q => exact ReadsStep.of_eq rfl rfl rfl
  | waypoint pos plan_ok =>
    show ReadsStep s (waypointCallback pos plan_ok s)
    by_cases halt : pos.z < -(1 / 10)
    · have h : waypointCallback pos plan_ok s = s := by
        unfold waypointCallback
        rw [if_pos halt]
      rw [h]
      exact ReadsStep.of_eq rfl rfl rfl
    · have hok : plan_ok = false := by
        have h : (plan_ok && !decide (pos.z < -(1 / 10))) = false := he
        rw [decide_eq_false halt] at h
        simpa using h
      rw [waypointCallback_eq pos plan_ok s halt, hok]
      exact ReadsStep.of_eq rfl rfl rfl

theorem readsStep_run {K : Type} [LinearOrderedField K] [FloorRing K] (sqrt : K → K) :
    ∀ (es : List (Event K)) (s : FSM K), (∀ e ∈ es, Event.acceptedTrigger e = false) →
      ReadsStep s (run sqrt s es) := by
  intro es
  induction es with
  | nil => intro s _; exact ReadsStep.of_eq rfl rfl rfl
  | cons e es ih =>
    intro s hes
    rw [run_cons]
    exact (readsStep_step sqrt s e (hes e (List.mem_cons_self e es))).trans
      (ih _ (fun x hx => hes x (List.mem_cons_of_mem e hx)))

/-- Claim C13. An accepted goal trigger sets `have_new_target_`. Every call of
`callReboundReplan` reads the flag, hands `have_new_target_ || flag` to the
optimizer and leaves the flag false, whether or not the optimizer succeeds.
Hence in any execution that follows the trigger and contains no other
accepted trigger, the optimizer calls `cs` made so far read
`readsOf true cs.length`: the first call reads `true` (and the optimizer
receives `true`), every later call reads `false`; the flag is still set when
no call has been made and is false afterwards. -/
theorem new_target_read_once {K : Type} [LinearOrderedField K] [FloorRing K]
    (sqrt : K → K) (pos : Vec3 K) (s0 : FSM K) (halt : ¬ pos.z < -(1 / 10))
    (es : List (Event K)) (hes : ∀ e ∈ es, Event.acceptedTrigger e = false) :
    (waypointCallback pos true s0).have_new_target_ = true ∧
      (∀ (r : ReplanOutcome K) (f g : Bool) (s : FSM K),
        (callReboundReplan sqrt r f g s).2.have_new_target_ = false ∧
          (callReboundReplan sqrt r f g s).2.new_target_reads_ =
            s.new_target_reads_ ++ [s.have_new_target_] ∧
          (callReboundReplan sqrt r f g s).2.replan_calls_ =
            s.replan_calls_ ++ [⟨s.have_new_target_ || f, g⟩]) ∧
      ∃ cs : List ReplanCall,
        (run sqrt (waypointCallback pos true s0) es).replan_calls_ =
            (waypointCallback pos true s0).replan_calls_ ++ cs ∧
          (run sqrt (waypointCallback pos true s0) es).new_target_reads_ =
            (waypointCallback pos true s0).new_target_reads_ ++ readsOf true cs.length ∧
          (run sqrt (waypointCallback pos true s0) es).have_new_target_ =
            (if cs = [] then true else false) ∧
          (∀ c : ReplanCall, cs.head? = some c → c.flag_polyInit = true) := by
  have hset : (waypointCallback pos true s0).have_new_target_ = true := by
    rw [waypointCallback_eq pos true s0 halt]
    simp only [if_true]
    split_ifs <;> simp [changeFSMExecState_eq]
  refine ⟨hset, ?_, ?_⟩
  · intro r f g s
    simp [callReboundReplan_snd]
  · obtain ⟨cs, h1, h2, h3, h4⟩ := readsStep_run sqrt es (waypointCallback pos true s0) hes
    rw [hset] at h2 h3
    exact ⟨cs, h1, h2, h3, h4 hset⟩

/-- Instance of `new_target_read_once`: a trigger accepted in `flyingState`,
followed by a core tick in `REPLAN_TRAJ` whose three optimizer calls fail. -/
theorem new_target_read_once_witness :
    (¬ (⟨10, 0, 0⟩ : Vec3 ℝ).z < -(1 / 10)) ∧
      (∀ e ∈ [Event.execFSM (clockOracle ℝ 1)], Event.acceptedTrigger e = false) ∧
      (waypointCallback ⟨10, 0, 0⟩ true (flyingState ℝ)).have_new_target_ = true ∧
      ∃ cs : List ReplanCall,
        (run Real.sqrt (waypointCallback ⟨10, 0, 0⟩ true (flyingState ℝ))
            [Event.execFSM (clockOracle ℝ 1)]).new_target_reads_ =
          (waypointCallback ⟨10, 0, 0⟩ true (flyingState ℝ)).new_target_reads_ ++
            readsOf true cs.length := by
  have halt : ¬ (⟨10, 0, 0⟩ : Vec3 ℝ).z < -(1 / 10) := by norm_num
  have hes : ∀ e ∈ [Event.execFSM (clockOracle ℝ 1)], Event.acceptedTrigger e = false := by
    intro e he
    simp only [List.mem_singleton] at he
    rw [he]
    rfl
  have h := new_target_read_once Real.sqrt ⟨10, 0, 0⟩ (flyingState ℝ) halt
    [Event.execFSM (clockOracle ℝ 1)] hes
  obtain ⟨cs, _, h2, _, _⟩ := h.2.2
  exact ⟨halt, hes, h.1, cs, h2⟩

/-! ### `getLocalTarget`: the tangent fallback, divisors, and the goal as a bound -/

theorem IsSqrt.mono {K : Type} [LinearOrderedField K] {sqrt : K → K} (h : IsSqrt sqrt)
    {x y : K} (hx : 0 ≤ x) (hxy : x ≤ y) : sqrt x ≤ sqrt y := by
  by_contra hlt
  push_neg at hlt
  have hy : 0 ≤ y := le_trans hx hxy
  have h1 := mul_self_lt_mul_self (h.nonneg hy) hlt
  rw [h.mul_self hx, h.mul_self hy] at h1
  exact absurd hxy (not_le.2 h1)

theorem Vec3.norm_mul_self {K : Type} [LinearOrderedField K] {sqrt : K → K}
    (h : IsSqrt sqrt) (v : Vec3 K) : v.norm sqrt * v.norm sqrt = v.squaredNorm :=
  h.mul_self (Vec3.squaredNorm_nonneg v)

/-- The inner product of `M + N*t - X0` with `N` is `b/2 + a*t`. -/
theorem dot_line_point {K : Type} [LinearOrderedField K] (s : FSM K) (t : K) :
    ((s.init_pt_.add ((s.end_pt_.sub s.init_pt_).smul t)).sub s.start_pt_).dot
        (s.end_pt_.sub s.init_pt_) = quadB s / 2 + quadA s * t := by
  unfold quadA quadB Vec3.squaredNorm Vec3.dot Vec3.sub Vec3.add Vec3.smul
  simp only
  ring

/-- The point of the reference line with parameter 1 is the goal. -/
theorem line_point_one {K : Type} [LinearOrderedField K] (s : FSM K) :
    s.init_pt_.add ((s.end_pt_.sub s.init_pt_).smul 1) = s.end_pt_ := by
  unfold Vec3.add Vec3.sub Vec3.smul
  ext <;> simp

/-- Twice the inner product of `goal - start` with `N` is `2*a + b`. -/
theorem two_quadA_add_quadB {K : Type} [LinearOrderedField K] (s : FSM K) :
    2 * quadA s + quadB s =
      2 * (s.end_pt_.sub s.start_pt_).dot (s.end_pt_.sub s.init_pt_) := by
  unfold quadA quadB Vec3.squaredNorm Vec3.dot Vec3.sub
  simp only
  ring

/-- Claim C18. Outside the arrival case of the source, when the goal differs
from the reference point and the discriminant is not positive,
`getLocalTarget` returns `M + N*t` with `t = -b/(2*a)`. This point is the
orthogonal projection of the start onto the reference line: the vector from
the start to it is orthogonal to `N`, and no point of the line is nearer to
the start. Its distance from the start is at least the horizon. -/
theorem getLocalTarget_tangent {K : Type} [LinearOrderedField K] (sqrt : K → K)
    (hsq : IsSqrt sqrt) (s : FSM K)
    (hout : ¬ (s.end_pt_.sub s.start_pt_).norm sqrt < s.planning_horizen_)
    (hne : s.end_pt_ ≠ s.init_pt_) (hdisc : quadDisc s ≤ 0) :
    (getLocalTarget sqrt s).local_target_pt_ =
        s.init_pt_.add ((s.end_pt_.sub s.init_pt_).smul (-quadB s / (2 * quadA s))) ∧
      ((getLocalTarget sqrt s).local_target_pt_.sub s.start_pt_).dot
        (s.end_pt_.sub s.init_pt_) = 0 ∧
      (∀ t : K, ((getLocalTarget sqrt s).local_target_pt_.sub s.start_pt_).norm sqrt ≤
        ((s.init_pt_.add ((s.end_pt_.sub s.init_pt_).smul t)).sub s.start_pt_).norm sqrt) ∧
      s.planning_horizen_ ≤
        ((getLocalTarget sqrt s).local_target_pt_.sub s.start_pt_).norm sqrt := by
  have ha := quadA_pos s hne
  have hp : (getLocalTarget sqrt s).local_target_pt_ =
      s.init_pt_.add ((s.end_pt_.sub s.init_pt_).smul (-quadB s / (2 * quadA s))) := by
    rw [getLocalTarget_pt, if_neg hout]
    unfold lineParam
    rw [if_neg (not_lt.2 hdisc)]
  have ht : 2 * quadA s * (-quadB s / (2 * quadA s)) = -quadB s :=
    mul_div_cancel₀ _ (by linarith)
  have hd : quadDisc s = quadB s * quadB s - 4 * quadA s * quadC s := rfl
  refine ⟨hp, ?_, ?_, ?_⟩
  · rw [hp, dot_line_point]
    linarith
  · intro t
    rw [hp]
    unfold Vec3.norm
    apply hsq.mono (Vec3.squaredNorm_nonneg _)
    rw [squaredNorm_line_point, squaredNorm_line_point]
    have hsqr : 0 ≤ quadA s * ((t - -quadB s / (2 * quadA s)) * (t - -quadB s / (2 * quadA s))) :=
      mul_nonneg ha.le (mul_self_nonneg _)
    have hid : quadA s * t * t + quadB s * t + quadC s -
        (quadA s * (-quadB s / (2 * quadA s)) * (-quadB s / (2 * quadA s)) +
          quadB s * (-quadB s / (2 * quadA s)) + quadC s) =
        quadA s * ((t - -quadB s / (2 * quadA s)) * (t - -quadB s / (2 * quadA s))) := by
      linear_combination (t - -quadB s / (2 * quadA s)) * ht
    linarith
  · rw [hp]
    have hq : 0 ≤ quadA s * (-quadB s / (2 * quadA s)) * (-quadB s / (2 * quadA s)) +
        quadB s * (-quadB s / (2 * quadA s)) + quadC s := by
      have h4 : 4 * quadA s *
          (quadA s * (-quadB s / (2 * quadA s)) * (-quadB s / (2 * quadA s)) +
            quadB s * (-quadB s / (2 * quadA s)) + quadC s) = -quadDisc s := by
        rw [hd]
        linear_combination (2 * quadA s * (-quadB s / (2 * quadA s)) + quadB s) * ht
      by_contra hneg
      push_neg at hneg
      have := mul_neg_of_pos_of_neg (show 0 < 4 * quadA s by linarith) hneg
      linarith
    calc s.planning_horizen_ ≤ |s.planning_horizen_| := le_abs_self _
      _ = sqrt (s.planning_horizen_ * s.planning_horizen_) := (hsq.sqrt_mul_self_abs _).symm
      _ ≤ _ := by
        unfold Vec3.norm
        apply hsq.mono (mul_self_nonneg _)
        rw [squaredNorm_line_point]
        linarith

/-- Claim C19. When the goal differs from the reference point and `max_acc_`
is positive, the divisors of `getLocalTarget` are non-zero: `2*a` in both
branches of the line parameter, `2*max_acc_` in the braking distance, the
braking distance itself whenever the branch that divides by it is taken, and
the length by which `normalized` divides. -/
theorem getLocalTarget_divisors {K : Type} [LinearOrderedField K] (sqrt : K → K)
    (hsq : IsSqrt sqrt) (s : FSM K) (hne : s.end_pt_ ≠ s.init_pt_) (ha : 0 < s.max_acc_) :
    lineParam sqrt s =
        (if quadDisc s > 0 then (-quadB s + sqrt (quadDisc s)) / (2 * quadA s)
          else -quadB s / (2 * quadA s)) ∧
      quadA s ≠ 0 ∧ 2 * quadA s ≠ 0 ∧
      brakeDist s = s.max_vel_ * s.max_vel_ / (2 * s.max_acc_) ∧
      2 * s.max_acc_ ≠ 0 ∧
      ((s.end_pt_.sub (getLocalTarget sqrt s).local_target_pt_).norm sqrt < brakeDist s →
        brakeDist s ≠ 0 ∧
          (getLocalTarget sqrt s).local_target_vel_ =
            Vec3.smul (((s.end_pt_.sub s.init_pt_).normalized sqrt).smul s.max_vel_)
              ((s.end_pt_.sub (getLocalTarget sqrt s).local_target_pt_).norm sqrt /
                brakeDist s)) ∧
      0 < (s.end_pt_.sub s.init_pt_).squaredNorm ∧
      sqrt (s.end_pt_.sub s.init_pt_).squaredNorm ≠ 0 := by
  have hA := quadA_pos s hne
  have hN : 0 < (s.end_pt_.sub s.init_pt_).squaredNorm := Vec3.squaredNorm_pos_of_ne hne
  refine ⟨rfl, ne_of_gt hA, by linarith [hA], rfl, by linarith [ha], ?_, hN, ?_⟩
  · intro hlt
    have hd := Vec3.norm_nonneg hsq (s.end_pt_.sub (getLocalTarget sqrt s).local_target_pt_)
    refine ⟨ne_of_gt (lt_of_le_of_lt hd hlt), ?_⟩
    rw [getLocalTarget_vel, if_pos hlt]
  · intro h0
    have := hsq.mul_self hN.le
    rw [h0, mul_zero] at this
    exact absurd this.symm (ne_of_gt hN)

/-- Claim C20, as amended. With a horizon that is not negative, outside the
arrival case of the source, when the goal differs from the reference point and
the start is not past the goal along the reference direction, the local
target is `M + N*t` with `t ≤ 1`: it does not lie beyond the goal. -/
theorem getLocalTarget_not_beyond_goal {K : Type} [LinearOrderedField K] (sqrt : K → K)
    (hsq : IsSqrt sqrt) (s : FSM K)
    (hout : ¬ (s.end_pt_.sub s.start_pt_).norm sqrt < s.planning_horizen_)
    (hne : s.end_pt_ ≠ s.init_pt_)
    (hdir : (s.start_pt_.sub s.end_pt_).dot (s.end_pt_.sub s.init_pt_) ≤ 0)
    (hh : 0 ≤ s.planning_horizen_) :
    (getLocalTarget sqrt s).local_target_pt_ =
        s.init_pt_.add ((s.end_pt_.sub s.init_pt_).smul (lineParam sqrt s)) ∧
      lineParam sqrt s ≤ 1 := by
  have ha := quadA_pos s hne
  refine ⟨by rw [getLocalTarget_pt, if_neg hout], ?_⟩
  have hvertex : 0 ≤ 2 * quadA s + quadB s := by
    rw [two_quadA_add_quadB]
    have : (s.end_pt_.sub s.start_pt_).dot (s.end_pt_.sub s.init_pt_) =
        -(s.start_pt_.sub s.end_pt_).dot (s.end_pt_.sub s.init_pt_) := by
      unfold Vec3.dot Vec3.sub
      simp only
      ring
    rw [this]
    linarith
  unfold lineParam
  split_ifs with hdisc
  · have hr := hsq.mul_self hdisc.le
    have hr0 := hsq.nonneg hdisc.le
    have hd : quadDisc s = quadB s * quadB s - 4 * quadA s * quadC s := rfl
    have hq1 : 0 ≤ quadA s + quadB s + quadC s := by
      have h1 := squaredNorm_line_point s 1
      rw [line_point_one] at h1
      have hn := not_lt.1 hout
      have hsq2 : s.planning_horizen_ * s.planning_horizen_ ≤
          (s.end_pt_.sub s.start_pt_).norm sqrt * (s.end_pt_.sub s.start_pt_).norm sqrt :=
        mul_self_le_mul_self hh hn
      rw [Vec3.norm_mul_self hsq] at hsq2
      linarith
    have hle : sqrt (quadDisc s) ≤ 2 * quadA s + quadB s := by
      by_contra hlt
      push_neg at hlt
      have h2 := mul_self_lt_mul_self hvertex hlt
      rw [hr, hd] at h2
      have h3 : 0 ≤ 4 * quadA s * (quadA s + quadB s + quadC s) :=
        mul_nonneg (by linarith) hq1
      nlinarith
    rw [div_le_one (by linarith)]
    linarith
  · rw [div_le_one (by linarith)]
    linarith

/-- Instance of `getLocalTarget_tangent`: reference line along the first axis
from the origin to `(10,0,0)`, start at `(5,7,0)`, horizon 5. -/
theorem getLocalTarget_tangent_witness :
    (¬ ((geomState ℝ ⟨0, 0, 0⟩ ⟨10, 0, 0⟩ ⟨5, 7, 0⟩ 5).end_pt_.sub
        (geomState ℝ ⟨0, 0, 0⟩ ⟨10, 0, 0⟩ ⟨5, 7, 0⟩ 5).start_pt_).norm Real.sqrt <
        (geomState ℝ ⟨0, 0, 0⟩ ⟨10, 0, 0⟩ ⟨5, 7, 0⟩ 5).planning_horizen_) ∧
      (geomState ℝ ⟨0, 0, 0⟩ ⟨10, 0, 0⟩ ⟨5, 7, 0⟩ 5).end_pt_ ≠
        (geomState ℝ ⟨0, 0, 0⟩ ⟨10, 0, 0⟩ ⟨5, 7, 0⟩ 5).init_pt_ ∧
      quadDisc (geomState ℝ ⟨0, 0, 0⟩ ⟨10, 0, 0⟩ ⟨5, 7, 0⟩ 5) ≤ 0 ∧
      (geomState ℝ ⟨0, 0, 0⟩ ⟨10, 0, 0⟩ ⟨5, 7, 0⟩ 5).planning_horizen_ ≤
        ((getLocalTarget Real.sqrt
            (geomState ℝ ⟨0, 0, 0⟩ ⟨10, 0, 0⟩ ⟨5, 7, 0⟩ 5)).local_target_pt_.sub
          (geomState ℝ ⟨0, 0, 0⟩ ⟨10, 0, 0⟩ ⟨5, 7, 0⟩ 5).start_pt_).norm Real.sqrt := by
  have hout : ¬ ((geomState ℝ ⟨0, 0, 0⟩ ⟨10, 0, 0⟩ ⟨5, 7, 0⟩ 5).end_pt_.sub
      (geomState ℝ ⟨0, 0, 0⟩ ⟨10, 0, 0⟩ ⟨5, 7, 0⟩ 5).start_pt_).norm Real.sqrt <
      (geomState ℝ ⟨0, 0, 0⟩ ⟨10, 0, 0⟩ ⟨5, 7, 0⟩ 5).planning_horizen_ := by
    rw [not_lt]
    have h5 : (geomState ℝ ⟨0, 0, 0⟩ ⟨10, 0, 0⟩ ⟨5, 7, 0⟩ 5).planning_horizen_ =
        Real.sqrt (5 * 5) := by
      rw [isSqrt_real.eq_of_mul_self (show (0 : ℝ) ≤ 5 by norm_num) rfl]
      rfl
    rw [h5]
    unfold Vec3.norm
    apply isSqrt_real.mono (by norm_num)
    norm_num [geomState, Vec3.sub, Vec3.squaredNorm]
  have hne : (geomState ℝ ⟨0, 0, 0⟩ ⟨10, 0, 0⟩ ⟨5, 7, 0⟩ 5).end_pt_ ≠
      (geomState ℝ ⟨0, 0, 0⟩ ⟨10, 0, 0⟩ ⟨5, 7, 0⟩ 5).init_pt_ := by
    norm_num [geomState]
  have hdisc : quadDisc (geomState ℝ ⟨0, 0, 0⟩ ⟨10, 0, 0⟩ ⟨5, 7, 0⟩ 5) ≤ 0 := by
    norm_num [quadDisc, quadA, quadB, quadC, geomState, zeroState, Vec3.sub, Vec3.dot,
      Vec3.squaredNorm]
  exact ⟨hout, hne, hdisc, (getLocalTarget_tangent Real.sqrt isSqrt_real
    (geomState ℝ ⟨0, 0, 0⟩ ⟨10, 0, 0⟩ ⟨5, 7, 0⟩ 5) hout hne hdisc).2.2.2⟩

/-- Instance of `getLocalTarget_divisors`: reference point and start at the
origin, goal `(10,0,0)`, `max_acc_ = 1`. -/
theorem getLocalTarget_divisors_witness :
    (geomState ℝ ⟨0, 0, 0⟩ ⟨10, 0, 0⟩ ⟨0, 0, 0⟩ 5).end_pt_ ≠
        (geomState ℝ ⟨0, 0, 0⟩ ⟨10, 0, 0⟩ ⟨0, 0, 0⟩ 5).init_pt_ ∧
      0 < (geomState ℝ ⟨0, 0, 0⟩ ⟨10, 0, 0⟩ ⟨0, 0, 0⟩ 5).max_acc_ ∧
      2 * quadA (geomState ℝ ⟨0, 0, 0⟩ ⟨10, 0, 0⟩ ⟨0, 0, 0⟩ 5) ≠ 0 := by
  have hne : (geomState ℝ ⟨0, 0, 0⟩ ⟨10, 0, 0⟩ ⟨0, 0, 0⟩ 5).end_pt_ ≠
      (geomState ℝ ⟨0, 0, 0⟩ ⟨10, 0, 0⟩ ⟨0, 0, 0⟩ 5).init_pt_ := by
    norm_num [geomState]
  have ha : 0 < (geomState ℝ ⟨0, 0, 0⟩ ⟨10, 0, 0⟩ ⟨0, 0, 0⟩ 5).max_acc_ := by
    norm_num [geomState]
  exact ⟨hne, ha, (getLocalTarget_divisors Real.sqrt isSqrt_real
    (geomState ℝ ⟨0, 0, 0⟩ ⟨10, 0, 0⟩ ⟨0, 0, 0⟩ 5) hne ha).2.2.1⟩

/-- Instance of `getLocalTarget_not_beyond_goal`: reference point and start at
the origin, goal `(10,0,0)`, horizon 5. -/
theorem getLocalTarget_not_beyond_goal_witness :
    (¬ ((geomState ℝ ⟨0, 0, 0⟩ ⟨10, 0, 0⟩ ⟨0, 0, 0⟩ 5).end_pt_.sub
        (geomState ℝ ⟨0, 0, 0⟩ ⟨10, 0, 0⟩ ⟨0, 0, 0⟩ 5).start_pt_).norm Real.sqrt <
        (geomState ℝ ⟨0, 0, 0⟩ ⟨10, 0, 0⟩ ⟨0, 0, 0⟩ 5).planning_horizen_) ∧
      (geomState ℝ ⟨0, 0, 0⟩ ⟨10, 0, 0⟩ ⟨0, 0, 0⟩ 5).end_pt_ ≠
        (geomState ℝ ⟨0, 0, 0⟩ ⟨10, 0, 0⟩ ⟨0, 0, 0⟩ 5).init_pt_ ∧
      ((geomState ℝ ⟨0, 0, 0⟩ ⟨10, 0, 0⟩ ⟨0, 0, 0⟩ 5).start_pt_.sub
        (geomState ℝ ⟨0, 0, 0⟩ ⟨10, 0, 0⟩ ⟨0, 0, 0⟩ 5).end_pt_).dot
        ((geomState ℝ ⟨0, 0, 0⟩ ⟨10, 0, 0⟩ ⟨0, 0, 0⟩ 5).end_pt_.sub
          (geomState ℝ ⟨0, 0, 0⟩ ⟨10, 0, 0⟩ ⟨0, 0, 0⟩ 5).init_pt_) ≤ 0 ∧
      0 ≤ (geomState ℝ ⟨0, 0, 0⟩ ⟨10, 0, 0⟩ ⟨0, 0, 0⟩ 5).planning_horizen_ ∧
      lineParam Real.sqrt (geomState ℝ ⟨0, 0, 0⟩ ⟨10, 0, 0⟩ ⟨0, 0, 0⟩ 5) ≤ 1 := by
  have hn : ((geomState ℝ ⟨0, 0, 0⟩ ⟨10, 0, 0⟩ ⟨0, 0, 0⟩ 5).end_pt_.sub
      (geomState ℝ ⟨0, 0, 0⟩ ⟨10, 0, 0⟩ ⟨0, 0, 0⟩ 5).start_pt_).norm Real.sqrt = 10 :=
    Vec3.norm_eq_of_mul_self isSqrt_real _ (by norm_num)
      (by norm_num [geomState, Vec3.sub, Vec3.squaredNorm])
  have hout : ¬ ((geomState ℝ ⟨0, 0, 0⟩ ⟨10, 0, 0⟩ ⟨0, 0, 0⟩ 5).end_pt_.sub
      (geomState ℝ ⟨0, 0, 0⟩ ⟨10, 0, 0⟩ ⟨0, 0, 0⟩ 5).start_pt_).norm Real.sqrt <
      (geomState ℝ ⟨0, 0, 0⟩ ⟨10, 0, 0⟩ ⟨0, 0, 0⟩ 5).planning_horizen_ := by
    rw [hn]; norm_num [geomState]
  have hne : (geomState ℝ ⟨0, 0, 0⟩ ⟨10, 0, 0⟩ ⟨0, 0, 0⟩ 5).end_pt_ ≠
      (geomState ℝ ⟨0, 0, 0⟩ ⟨10, 0, 0⟩ ⟨0, 0, 0⟩ 5).init_pt_ := by
    norm_num [geomState]
  have hdir : ((geomState ℝ ⟨0, 0, 0⟩ ⟨10, 0, 0⟩ ⟨0, 0, 0⟩ 5).start_pt_.sub
      (geomState ℝ ⟨0, 0, 0⟩ ⟨10, 0, 0⟩ ⟨0, 0, 0⟩ 5).end_pt_).dot
      ((geomState ℝ ⟨0, 0, 0⟩ ⟨10, 0, 0⟩ ⟨0, 0, 0⟩ 5).end_pt_.sub
        (geomState ℝ ⟨0, 0, 0⟩ ⟨10, 0, 0⟩ ⟨0, 0, 0⟩ 5).init_pt_) ≤ 0 := by
    norm_num [geomState, Vec3.sub, Vec3.dot]
  have hh : 0 ≤ (geomState ℝ ⟨0, 0, 0⟩ ⟨10, 0, 0⟩ ⟨0, 0, 0⟩ 5).planning_horizen_ := by
    norm_num [geomState]
  exact ⟨hout, hne, hdir, hh, (getLocalTarget_not_beyond_goal Real.sqrt isSqrt_real
    (geomState ℝ ⟨0, 0, 0⟩ ⟨10, 0, 0⟩ ⟨0, 0, 0⟩ 5) hout hne hdir hh).2⟩

/-- Claim C20 fails as stated. With the horizon at -1 (the value the parameter
has when it is not configured), reference point `(0,0,0)`, goal `(10,0,0)` and
start `(19/2,0,0)`, the input is outside the arrival case, the goal differs
from the reference point and the start is not past the goal; the discriminant
is 400, the line parameter is `21/20 > 1` and the local target `(21/2,0,0)`
lies beyond the goal. -/
theorem getLocalTarget_beyond_goal :
    (geomState ℝ ⟨0, 0, 0⟩ ⟨10, 0, 0⟩ ⟨19 / 2, 0, 0⟩ (-1)).planning_horizen_ <
        ((geomState ℝ ⟨0, 0, 0⟩ ⟨10, 0, 0⟩ ⟨19 / 2, 0, 0⟩ (-1)).end_pt_.sub
          (geomState ℝ ⟨0, 0, 0⟩ ⟨10, 0, 0⟩ ⟨19 / 2, 0, 0⟩ (-1)).start_pt_).norm Real.sqrt ∧
      (geomState ℝ ⟨0, 0, 0⟩ ⟨10, 0, 0⟩ ⟨19 / 2, 0, 0⟩ (-1)).end_pt_ ≠
        (geomState ℝ ⟨0, 0, 0⟩ ⟨10, 0, 0⟩ ⟨19 / 2, 0, 0⟩ (-1)).init_pt_ ∧
      ((geomState ℝ ⟨0, 0, 0⟩ ⟨10, 0, 0⟩ ⟨19 / 2, 0, 0⟩ (-1)).start_pt_.sub
        (geomState ℝ ⟨0, 0, 0⟩ ⟨10, 0, 0⟩ ⟨19 / 2, 0, 0⟩ (-1)).end_pt_).dot
        ((geomState ℝ ⟨0, 0, 0⟩ ⟨10, 0, 0⟩ ⟨19 / 2, 0, 0⟩ (-1)).end_pt_.sub
          (geomState ℝ ⟨0, 0, 0⟩ ⟨10, 0, 0⟩ ⟨19 / 2, 0, 0⟩ (-1)).init_pt_) ≤ 0 ∧
      lineParam Real.sqrt (geomState ℝ ⟨0, 0, 0⟩ ⟨10, 0, 0⟩ ⟨19 / 2, 0, 0⟩ (-1)) = 21 / 20 ∧
      (getLocalTarget Real.sqrt
        (geomState ℝ ⟨0, 0, 0⟩ ⟨10, 0, 0⟩ ⟨19 / 2, 0, 0⟩ (-1))).local_target_pt_ =
        ⟨21 / 2, 0, 0⟩ ∧
      ¬ lineParam Real.sqrt (geomState ℝ ⟨0, 0, 0⟩ ⟨10, 0, 0⟩ ⟨19 / 2, 0, 0⟩ (-1)) ≤ 1 := by
  have hn : ((geomState ℝ ⟨0, 0, 0⟩ ⟨10, 0, 0⟩ ⟨19 / 2, 0, 0⟩ (-1)).end_pt_.sub
      (geomState ℝ ⟨0, 0, 0⟩ ⟨10, 0, 0⟩ ⟨19 / 2, 0, 0⟩ (-1)).start_pt_).norm Real.sqrt =
      1 / 2 :=
    Vec3.norm_eq_of_mul_self isSqrt_real _ (by norm_num)
      (by norm_num [geomState, Vec3.sub, Vec3.squaredNorm])
  have hd : quadDisc (geomState ℝ ⟨0, 0, 0⟩ ⟨10, 0, 0⟩ ⟨19 / 2, 0, 0⟩ (-1)) = 400 := by
    norm_num [quadDisc, quadA, quadB, quadC, geomState, zeroState, Vec3.sub, Vec3.dot,
      Vec3.squaredNorm]
  have hs : Real.sqrt 400 = 20 := isSqrt_real.eq_of_mul_self (by norm_num) (by norm_num)
  have ht : lineParam Real.sqrt (geomState ℝ ⟨0, 0, 0⟩ ⟨10, 0, 0⟩ ⟨19 / 2, 0, 0⟩ (-1)) =
      21 / 20 := by
    unfold lineParam
    rw [hd, if_pos (by norm_num), hs]
    norm_num [quadA, quadB, geomState, zeroState, Vec3.sub, Vec3.dot, Vec3.squaredNorm]
  have hp : (getLocalTarget Real.sqrt
      (geomState ℝ ⟨0, 0, 0⟩ ⟨10, 0, 0⟩ ⟨19 / 2, 0, 0⟩ (-1))).local_target_pt_ =
      ⟨21 / 2, 0, 0⟩ := by
    rw [getLocalTarget_pt, hn, if_neg (by norm_num [geomState]), ht]
    norm_num [geomState, zeroState, Vec3.sub, Vec3.add, Vec3.smul]
  refine ⟨?_, by norm_num [geomState], ?_, ht, hp, ?_⟩
  · rw [hn]; norm_num [geomState]
  · norm_num [geomState, Vec3.sub, Vec3.dot]
  · rw [ht]; norm_num

end Theorems

end ReboReplanFSM
